import Mathlib

set_option maxHeartbeats 1000000
set_option maxRecDepth 20000

/-!
Shallow embedding of the MoE routing core in src/component/Cmoe/routing.py
(functions top1gating and top2gating, dense branch).

Modelling conventions:
* A tensor of shape S x E becomes a function Fin S → Fin E → ℚ (float tensors) or
  Fin S → Fin E → ℤ (integer / one-hot tensors); float arithmetic is modelled
  exactly over ℚ and torch.finfo(torch.float32).eps is 2 ^ (-23).
* gates denotes the row-stochastic matrix F.softmax(logits, dim=1).  Softmax over
  the reals is transcendental, so the embedding takes gates as an input next to
  logits; softmax is strictly monotone and injective within a row, hence the
  argument maxima (with ties) of a row of gates coincide with those of the same
  row of logits.
* torch.argmax returns the first index attaining the row maximum.
* The stochastic draws of top2gating (the Gumbel noise of the sampling policy and
  the uniform draws of the random policy) and the permutation produced by
  torch.argsort in batch-prioritized routing (whose tie order is unspecified) are
  explicit inputs.
* The metadata dictionary holds diagnostics only and is not modelled; the fp32
  dtype round trip is the identity in the exact model; has_tutel is False, so the
  dense (non-accelerated) branch is modelled.
-/

/-- First index attaining the maximum among the candidates, scanning with a
running best; a later candidate replaces the best only when strictly larger. -/
def argmaxAux {α : Type} [LinearOrder α] {E : ℕ} (v : Fin E → α) :
    List (Fin E) → Fin E → Fin E
  | [], best => best
  | j :: js, best => argmaxAux v js (if v best < v j then j else best)

/-- torch.argmax over one row: the first index attaining the row maximum. -/
def argmaxFin {α : Type} [LinearOrder α] {E : ℕ} (hE : 0 < E) (v : Fin E → α) : Fin E :=
  argmaxAux v (List.finRange E) ⟨0, hE⟩

/-- one_hot (routing.py 226-234) of an in-range index: a row with a single 1. -/
def one_hot {E : ℕ} (i : Fin E) : Fin E → ℤ :=
  fun j => if j = i then 1 else 0

/-- Modelled from the spec: fused_cumsum_sub_one is imported from the missing
moe_layer module of this repository.  Spec section 4.2 step 5 and section 4.4
describe it, at every place it is used, as the exclusive per-column running
count: for each expert column, the number of entries strictly before the current
row. -/
def fused_cumsum_sub_one {S E : ℕ} (mask : Fin S → Fin E → ℤ) : Fin S → Fin E → ℤ :=
  fun s e => ∑ t ∈ Finset.univ.filter (fun t : Fin S => t < s), mask t e

/-- Padding removal (routing.py 52-54 and 298-301): when an input mask is given
and at least one entry is set, the rows of flagged tokens are zeroed by
multiplication with the cast of the negated mask. -/
def apply_input_mask {S E : ℕ} (im : Option (Fin S → Bool)) (mask : Fin S → Fin E → ℤ) :
    Fin S → Fin E → ℤ :=
  match im with
  | none => mask
  | some m =>
      if ∃ s, m s = true then fun s e => mask s e * (if m s then 0 else 1) else mask

/-- Python int() applied to a real value: truncation toward zero. -/
def pyInt (q : ℚ) : ℤ :=
  if 0 ≤ q then ⌊q⌋ else ⌈q⌉

/-- torch.finfo(torch.float32).eps, the clamp floor of the renormalization
denominators. -/
def torch_eps : ℚ := 1 / 2 ^ 23

/-- Capacity of top1gating (routing.py 43-47): eval branch
math.ceil(frac * S), otherwise int(capacity_factor * math.ceil(S / E)). -/
def top1_capacity (S E : ℕ) (capacity_factor : ℚ) (eval_mode : Bool) (frac : ℚ) : ℤ :=
  if 0 < frac ∧ eval_mode = true then ⌈frac * (S : ℚ)⌉
  else pyInt (capacity_factor * ((⌈(S : ℚ) / (E : ℚ)⌉ : ℤ) : ℚ))

/-- Capacity of top2gating (routing.py 263-267): eval branch
math.ceil(frac * S), otherwise 2 * math.ceil(S / E). -/
def top2_capacity (S E : ℕ) (eval_mode : Bool) (frac : ℚ) : ℤ :=
  if 0 < frac ∧ eval_mode = true then ⌈frac * (S : ℚ)⌉
  else 2 * ⌈(S : ℚ) / (E : ℚ)⌉

/-- indices1_s: the per-token argmax of the gate probabilities
(routing.py 50 and 270). -/
def routing_indices1 {S E : ℕ} (hE : 0 < E) (gates : Fin S → Fin E → ℚ) : Fin S → Fin E :=
  fun s => argmaxFin hE (gates s)

/-- mask1 before padding removal (routing.py 51 and 271). -/
def routing_mask1_raw {S E : ℕ} (hE : 0 < E) (gates : Fin S → Fin E → ℚ) :
    Fin S → Fin E → ℤ :=
  fun s => one_hot (routing_indices1 hE gates s)

/-- mask1 after padding removal (routing.py 52-54 and 298-301). -/
def routing_mask1 {S E : ℕ} (hE : 0 < E) (gates : Fin S → Fin E → ℚ)
    (im : Option (Fin S → Bool)) : Fin S → Fin E → ℤ :=
  apply_input_mask im (routing_mask1_raw hE gates)

/-- me: the mean gate probability per expert (routing.py 80 and 331). -/
def routing_me {S E : ℕ} (gates : Fin S → Fin E → ℚ) : Fin E → ℚ :=
  fun e => (∑ s, gates s e) / (S : ℚ)

/-- ce: the mean first-choice assignment fraction per expert, computed from the
pre-capacity mask (routing.py 81 and 332). -/
def routing_ce {S E : ℕ} (mask1 : Fin S → Fin E → ℤ) : Fin E → ℚ :=
  fun e => (∑ s, ((mask1 s e : ℤ) : ℚ)) / (S : ℚ)

/-- l_aux = mean(me * ce) * E * E (routing.py 83-84 and 333-334). -/
def routing_l_aux {S E : ℕ} (gates : Fin S → Fin E → ℚ) (mask1 : Fin S → Fin E → ℤ) : ℚ :=
  ((∑ e, routing_me gates e * routing_ce mask1 e) / (E : ℚ)) * (E : ℚ) * (E : ℚ)

/-- locations1 of top1gating: candidate slots in sequence order (routing.py 77). -/
def top1_locations1 {S E : ℕ} (hE : 0 < E) (gates : Fin S → Fin E → ℚ)
    (im : Option (Fin S → Bool)) : Fin S → Fin E → ℤ :=
  fused_cumsum_sub_one (routing_mask1 hE gates im)

/-- gates1_s of top1gating (routing.py 74). -/
def top1_gates1_s {S E : ℕ} (hE : 0 < E) (gates : Fin S → Fin E → ℚ)
    (im : Option (Fin S → Bool)) : Fin S → ℚ :=
  fun s => ∑ e, gates s e * ((routing_mask1 hE gates im s e : ℤ) : ℚ)

/-- mask1 after removing locations outside capacity (routing.py 105). -/
def top1_mask1_capped {S E : ℕ} (hE : 0 < E) (gates : Fin S → Fin E → ℚ)
    (im : Option (Fin S → Bool)) (cf : ℚ) (em : Bool) (frac : ℚ) : Fin S → Fin E → ℤ :=
  fun s e => routing_mask1 hE gates im s e *
    (if top1_locations1 hE gates im s e < top1_capacity S E cf em frac then 1 else 0)

/-- locations1_s of top1gating (routing.py 107). -/
def top1_locations1_s {S E : ℕ} (hE : 0 < E) (gates : Fin S → Fin E → ℚ)
    (im : Option (Fin S → Bool)) (cf : ℚ) (em : Bool) (frac : ℚ) : Fin S → ℤ :=
  fun s => ∑ e, top1_locations1 hE gates im s e * top1_mask1_capped hE gates im cf em frac s e

/-- one_hot of the integer slot indices with the scatter bound check
(routing.py 226-234 called at 112 and 413-414): torch.zeros rejects a negative
class count and Tensor.scatter_ rejects an index outside [0, C). -/
def one_hot_loc {S : ℕ} (C : ℤ) (idx : Fin S → ℤ) : Option (Fin S → ℕ → ℤ) :=
  if 0 ≤ C ∧ ∀ s, 0 ≤ idx s ∧ idx s < C then
    some (fun s c => if (c : ℤ) = idx s then 1 else 0)
  else none

/-- Dense routing output: the auxiliary loss, the combine weights (token, expert,
slot) and the boolean dispatch mask.  Slot indices are ℕ; the combine weights
vanish at and beyond the capacity. -/
structure GatingResult (S E : ℕ) where
  l_aux : ℚ
  combine : Fin S → Fin E → ℕ → ℚ
  dispatch : Fin S → Fin E → ℕ → Bool

/-- top1gating, dense branch (routing.py 21-122 with has_tutel False). -/
def top1gating {S E : ℕ} (hE : 0 < E) (gates : Fin S → Fin E → ℚ)
    (im : Option (Fin S → Bool)) (cf : ℚ) (em : Bool) (frac : ℚ) :
    Option (GatingResult S E) :=
  (one_hot_loc (top1_capacity S E cf em frac) (top1_locations1_s hE gates im cf em frac)).map
    fun locations1_sc =>
      let combine : Fin S → Fin E → ℕ → ℚ := fun s e c =>
        (top1_gates1_s hE gates im s *
            ((top1_mask1_capped hE gates im cf em frac s e : ℤ) : ℚ)) *
          ((locations1_sc s c : ℤ) : ℚ)
      { l_aux := routing_l_aux gates (routing_mask1 hE gates im)
        combine := combine
        dispatch := fun s e c => decide (combine s e c ≠ 0) }

/-- Policy selecting the second expert in top2gating (routing.py 247): the
string values "sampling" and "random" are special; every other string is the
deterministic runner-up. -/
inductive SecondPolicy : Type
  | sampling
  | random
  | other
deriving DecidableEq

/-- Per-call configuration of top2gating, together with the explicit stochastic
draws and the argsort permutation of batch-prioritized routing. -/
structure Top2Config (S : ℕ) where
  input_mask : Option (Fin S → Bool)
  second_expert_policy : SecondPolicy
  normalize_gate_prob_before_dropping : Bool
  eval_mode : Bool
  moe_eval_capacity_token_fraction : ℚ
  batch_prioritized_routing : Bool
  sort_perm : Equiv.Perm (Fin S)

/-- logits_w_noise (routing.py 272-277): Gumbel noise is added only under the
sampling policy; the noise tensor itself is an explicit input. -/
def top2_logits_w_noise {S E : ℕ} (policy : SecondPolicy)
    (logits noise : Fin S → Fin E → ℚ) : Fin S → Fin E → ℚ :=
  if policy = SecondPolicy.sampling then fun s e => logits s e + noise s e else logits

/-- logits_except1 (routing.py 279): the first-choice entry of each row is
replaced by minus infinity, modelled as the bottom of WithBot ℚ. -/
def top2_logits_except1 {S E : ℕ} (hE : 0 < E) (gates logits noise : Fin S → Fin E → ℚ)
    (policy : SecondPolicy) : Fin S → Fin E → WithBot ℚ :=
  fun s e =>
    if routing_mask1_raw hE gates s e ≠ 0 then (⊥ : WithBot ℚ)
    else ((top2_logits_w_noise policy logits noise s e : ℚ) : WithBot ℚ)

/-- indices2_s (routing.py 280). -/
def top2_indices2 {S E : ℕ} (hE : 0 < E) (gates logits noise : Fin S → Fin E → ℚ)
    (policy : SecondPolicy) : Fin S → Fin E :=
  fun s => argmaxFin hE (top2_logits_except1 hE gates logits noise policy s)

/-- mask2 before thinning and padding (routing.py 281). -/
def top2_mask2_raw {S E : ℕ} (hE : 0 < E) (gates logits noise : Fin S → Fin E → ℚ)
    (policy : SecondPolicy) : Fin S → Fin E → ℤ :=
  fun s => one_hot (top2_indices2 hE gates logits noise policy s)

/-- gates1_s before normalization (routing.py 282). -/
def top2_gates1_s_raw {S E : ℕ} (hE : 0 < E) (gates : Fin S → Fin E → ℚ) : Fin S → ℚ :=
  fun s => ∑ e, gates s e * ((routing_mask1_raw hE gates s e : ℤ) : ℚ)

/-- gates2_s before normalization (routing.py 283). -/
def top2_gates2_s_raw {S E : ℕ} (hE : 0 < E) (gates logits noise : Fin S → Fin E → ℚ)
    (policy : SecondPolicy) : Fin S → ℚ :=
  fun s => ∑ e, gates s e * ((top2_mask2_raw hE gates logits noise policy s e : ℤ) : ℚ)

/-- gates1_s after the optional pre-drop normalization (routing.py 285-291);
the denominator is clamped below at torch_eps. -/
def top2_gates1_s_pre {S E : ℕ} (hE : 0 < E) (gates logits noise : Fin S → Fin E → ℚ)
    (policy : SecondPolicy) (nb : Bool) : Fin S → ℚ :=
  if nb = true then
    fun s => top2_gates1_s_raw hE gates s /
      max (top2_gates1_s_raw hE gates s + top2_gates2_s_raw hE gates logits noise policy s)
        torch_eps
  else top2_gates1_s_raw hE gates

/-- gates2_s after the optional pre-drop normalization (routing.py 285-291). -/
def top2_gates2_s_pre {S E : ℕ} (hE : 0 < E) (gates logits noise : Fin S → Fin E → ℚ)
    (policy : SecondPolicy) (nb : Bool) : Fin S → ℚ :=
  if nb = true then
    fun s => top2_gates2_s_raw hE gates logits noise policy s /
      max (top2_gates1_s_raw hE gates s + top2_gates2_s_raw hE gates logits noise policy s)
        torch_eps
  else top2_gates2_s_raw hE gates logits noise policy

/-- mask2 after the random-policy thinning (routing.py 293-295): under the
random policy the second choice of token s is kept only when
2 * gates2_s s exceeds the uniform draw rand s. -/
def top2_mask2_thinned {S E : ℕ} (hE : 0 < E) (gates logits noise : Fin S → Fin E → ℚ)
    (rand : Fin S → ℚ) (policy : SecondPolicy) (nb : Bool) : Fin S → Fin E → ℤ :=
  if policy = SecondPolicy.random then
    fun s e => top2_mask2_raw hE gates logits noise policy s e *
      (if rand s < 2 * top2_gates2_s_pre hE gates logits noise policy nb s then 1 else 0)
  else top2_mask2_raw hE gates logits noise policy

/-- mask1 of top2gating after padding removal (routing.py 298-301). -/
def top2_mask1 {S E : ℕ} (hE : 0 < E) (gates : Fin S → Fin E → ℚ)
    (cfg : Top2Config S) : Fin S → Fin E → ℤ :=
  routing_mask1 hE gates cfg.input_mask

/-- mask2 of top2gating after padding removal (routing.py 298-301). -/
def top2_mask2 {S E : ℕ} (hE : 0 < E) (gates logits noise : Fin S → Fin E → ℚ)
    (rand : Fin S → ℚ) (cfg : Top2Config S) : Fin S → Fin E → ℤ :=
  apply_input_mask cfg.input_mask
    (top2_mask2_thinned hE gates logits noise rand cfg.second_expert_policy
      cfg.normalize_gate_prob_before_dropping)

/-- col_sum: torch.sum(mask, dim=0) (routing.py 318 and 328). -/
def col_sum {S E : ℕ} (mask : Fin S → Fin E → ℤ) : Fin E → ℤ :=
  fun e => ∑ s, mask s e

/-- Batch-prioritized candidate slots (routing.py 303-316): rows are permuted by
the argsort permutation of the importance scores, the per-column running count
is taken and multiplied by the sorted mask, and rows are permuted back. -/
def bpr_locations {S E : ℕ} (σ : Equiv.Perm (Fin S)) (mask : Fin S → Fin E → ℤ) :
    Fin S → Fin E → ℤ :=
  fun s e =>
    fused_cumsum_sub_one (fun t e' => mask (σ t) e') (σ.symm s) e * mask (σ (σ.symm s)) e

/-- Candidate slots in either admission mode (routing.py 303-328, before the
second-choice offset). -/
def seq_or_bpr_locations {S E : ℕ} (bp : Bool) (σ : Equiv.Perm (Fin S))
    (mask : Fin S → Fin E → ℤ) : Fin S → Fin E → ℤ :=
  if bp = true then bpr_locations σ mask else fused_cumsum_sub_one mask

/-- locations1 of top2gating (routing.py 303-325). -/
def top2_locations1 {S E : ℕ} (hE : 0 < E) (gates : Fin S → Fin E → ℚ)
    (cfg : Top2Config S) : Fin S → Fin E → ℤ :=
  seq_or_bpr_locations cfg.batch_prioritized_routing cfg.sort_perm
    (top2_mask1 hE gates cfg)

/-- locations2 of top2gating (routing.py 303-328): the second-choice candidate
slots are offset by the total pre-capacity first-choice count of the expert. -/
def top2_locations2 {S E : ℕ} (hE : 0 < E) (gates logits noise : Fin S → Fin E → ℚ)
    (rand : Fin S → ℚ) (cfg : Top2Config S) : Fin S → Fin E → ℤ :=
  fun s e =>
    seq_or_bpr_locations cfg.batch_prioritized_routing cfg.sort_perm
        (top2_mask2 hE gates logits noise rand cfg) s e +
      col_sum (top2_mask1 hE gates cfg) e

/-- mask1 after removing locations outside capacity (routing.py 346). -/
def top2_mask1_capped {S E : ℕ} (hE : 0 < E) (gates : Fin S → Fin E → ℚ)
    (cfg : Top2Config S) : Fin S → Fin E → ℤ :=
  fun s e => top2_mask1 hE gates cfg s e *
    (if top2_locations1 hE gates cfg s e <
        top2_capacity S E cfg.eval_mode cfg.moe_eval_capacity_token_fraction
      then 1 else 0)

/-- mask2 after removing locations outside capacity (routing.py 347). -/
def top2_mask2_capped {S E : ℕ} (hE : 0 < E) (gates logits noise : Fin S → Fin E → ℚ)
    (rand : Fin S → ℚ) (cfg : Top2Config S) : Fin S → Fin E → ℤ :=
  fun s e => top2_mask2 hE gates logits noise rand cfg s e *
    (if top2_locations2 hE gates logits noise rand cfg s e <
        top2_capacity S E cfg.eval_mode cfg.moe_eval_capacity_token_fraction
      then 1 else 0)

/-- gates1_s after the default post-drop normalization (routing.py 383-391):
when normalization was not done before dropping, the gate values are recomputed
from the capped masks and normalized with the clamped denominator. -/
def top2_gates1_s_final {S E : ℕ} (hE : 0 < E) (gates logits noise : Fin S → Fin E → ℚ)
    (rand : Fin S → ℚ) (cfg : Top2Config S) : Fin S → ℚ :=
  if cfg.normalize_gate_prob_before_dropping = true then
    top2_gates1_s_pre hE gates logits noise cfg.second_expert_policy true
  else
    fun s =>
      (∑ e, gates s e * ((top2_mask1_capped hE gates cfg s e : ℤ) : ℚ)) /
        max ((∑ e, gates s e * ((top2_mask1_capped hE gates cfg s e : ℤ) : ℚ)) +
            (∑ e, gates s e * ((top2_mask2_capped hE gates logits noise rand cfg s e : ℤ) : ℚ)))
          torch_eps

/-- gates2_s after the default post-drop normalization (routing.py 383-391). -/
def top2_gates2_s_final {S E : ℕ} (hE : 0 < E) (gates logits noise : Fin S → Fin E → ℚ)
    (rand : Fin S → ℚ) (cfg : Top2Config S) : Fin S → ℚ :=
  if cfg.normalize_gate_prob_before_dropping = true then
    top2_gates2_s_pre hE gates logits noise cfg.second_expert_policy true
  else
    fun s =>
      (∑ e, gates s e * ((top2_mask2_capped hE gates logits noise rand cfg s e : ℤ) : ℚ)) /
        max ((∑ e, gates s e * ((top2_mask1_capped hE gates cfg s e : ℤ) : ℚ)) +
            (∑ e, gates s e * ((top2_mask2_capped hE gates logits noise rand cfg s e : ℤ) : ℚ)))
          torch_eps

/-- locations1_s of top2gating (routing.py 407). -/
def top2_locations1_s {S E : ℕ} (hE : 0 < E) (gates logits noise : Fin S → Fin E → ℚ)
    (rand : Fin S → ℚ) (cfg : Top2Config S) : Fin S → ℤ :=
  fun s => ∑ e, top2_locations1 hE gates cfg s e * top2_mask1_capped hE gates cfg s e

/-- locations2_s of top2gating (routing.py 408). -/
def top2_locations2_s {S E : ℕ} (hE : 0 < E) (gates logits noise : Fin S → Fin E → ℚ)
    (rand : Fin S → ℚ) (cfg : Top2Config S) : Fin S → ℤ :=
  fun s => ∑ e, top2_locations2 hE gates logits noise rand cfg s e *
    top2_mask2_capped hE gates logits noise rand cfg s e

/-- top2gating, dense branch (routing.py 243-430 with has_tutel False): combine
weights are the sum of the two per-rank contributions and the dispatch mask is
their boolean version. -/
def top2gating {S E : ℕ} (hE : 0 < E) (gates logits noise : Fin S → Fin E → ℚ)
    (rand : Fin S → ℚ) (cfg : Top2Config S) : Option (GatingResult S E) :=
  (one_hot_loc (top2_capacity S E cfg.eval_mode cfg.moe_eval_capacity_token_fraction)
      (top2_locations1_s hE gates logits noise rand cfg)).bind
    fun locations1_sc =>
      (one_hot_loc (top2_capacity S E cfg.eval_mode cfg.moe_eval_capacity_token_fraction)
          (top2_locations2_s hE gates logits noise rand cfg)).map
        fun locations2_sc =>
          let combine : Fin S → Fin E → ℕ → ℚ := fun s e c =>
            (top2_gates1_s_final hE gates logits noise rand cfg s *
                  ((top2_mask1_capped hE gates cfg s e : ℤ) : ℚ)) *
                ((locations1_sc s c : ℤ) : ℚ) +
              (top2_gates2_s_final hE gates logits noise rand cfg s *
                  ((top2_mask2_capped hE gates logits noise rand cfg s e : ℤ) : ℚ)) *
                ((locations2_sc s c : ℤ) : ℚ)
          { l_aux := routing_l_aux gates (top2_mask1 hE gates cfg)
            combine := combine
            dispatch := fun s e c => decide (combine s e c ≠ 0) }


/-- A 0/1-valued integer mask. -/
def IsBinary {S E : ℕ} (m : Fin S → Fin E → ℤ) : Prop :=
  ∀ s e, m s e = 0 ∨ m s e = 1

/-- Demo gate matrix with uniform column means: two tokens, two experts, token s
prefers expert s. -/
def demo_gatesU : Fin 2 → Fin 2 → ℚ :=
  fun s e => if s = e then 3/5 else 2/5

/-- Demo logits matrix matching demo_gatesU in row order (softmax is strictly
monotone within a row, so any order-matching logits are a faithful companion). -/
def demo_logitsU : Fin 2 → Fin 2 → ℚ := demo_gatesU

/-- Demo gate matrix of the top-1 overflow scenario: three tokens, two experts,
every token prefers expert 0 with probability 4/5. -/
def demo_gatesOv : Fin 3 → Fin 2 → ℚ :=
  fun _ e => if e = 0 then 4/5 else 1/5

/-- Demo gate matrix of the top-2 normalization-order scenario: token 1 has raw
gate probabilities 3/5 on its first choice (expert 0) and 3/10 on its second
choice (expert 1); token 0 routes first to expert 1 and second to expert 2. -/
def demo_gatesN : Fin 2 → Fin 3 → ℚ :=
  fun s e =>
    if s = 0 then (if e = 0 then 1/10 else if e = 1 then 3/4 else 3/20)
    else (if e = 0 then 3/5 else if e = 1 then 3/10 else 1/10)

/-- Configuration of the normalization-order scenario: deterministic second
choice, eval capacity fraction 1/4 on two tokens, hence capacity 1. -/
def demo_cfgN (nb : Bool) : Top2Config 2 :=
  ⟨none, SecondPolicy.other, nb, true, 1/4, false, Equiv.refl (Fin 2)⟩

/-- Configuration of the uniform top-2 scenario: deterministic second choice,
training mode, sequence-order admission. -/
def demo_cfgU : Top2Config 2 :=
  ⟨none, SecondPolicy.other, false, false, 1/4, false, Equiv.refl (Fin 2)⟩

/-- Demo input of the single-expert top-2 scenario: one token, one expert. -/
def demo_gates1 : Fin 1 → Fin 1 → ℚ := fun _ _ => 1

/-- Configuration of the single-expert scenario: deterministic second choice,
training mode, sequence-order admission. -/
def demo_cfg1 : Top2Config 1 :=
  ⟨none, SecondPolicy.other, false, false, 1/4, false, Equiv.refl (Fin 1)⟩

/-- The running best of argmaxAux never decreases and dominates every scanned
candidate. -/
lemma argmaxAux_le {α : Type} [LinearOrder α] {E : ℕ} (v : Fin E → α) (l : List (Fin E)) :
    ∀ b, v b ≤ v (argmaxAux v l b) ∧ ∀ j ∈ l, v j ≤ v (argmaxAux v l b) := by
  induction l with
  | nil => intro b; simp [argmaxAux]
  | cons j js ih =>
    intro b
    simp only [argmaxAux, List.mem_cons]
    have hbb' : v b ≤ v (if v b < v j then j else b) := by
      by_cases h : v b < v j
      · simpa [if_pos h] using le_of_lt h
      · simp [if_neg h]
    have hjb' : v j ≤ v (if v b < v j then j else b) := by
      by_cases h : v b < v j
      · simp [if_pos h]
      · simpa [if_neg h] using le_of_not_lt h
    refine ⟨le_trans hbb' (ih _).1, fun k hk => ?_⟩
    rcases hk with rfl | hkjs
    · exact le_trans hjb' (ih _).1
    · exact (ih _).2 k hkjs

/-- argmaxFin attains the maximum of the row. -/
lemma argmaxFin_le {α : Type} [LinearOrder α] {E : ℕ} (hE : 0 < E) (v : Fin E → α)
    (j : Fin E) : v j ≤ v (argmaxFin hE v) :=
  (argmaxAux_le v (List.finRange E) ⟨0, hE⟩).2 j (List.mem_finRange j)

lemma IsBinary.nonneg {S E : ℕ} {m : Fin S → Fin E → ℤ} (h : IsBinary m)
    (s : Fin S) (e : Fin E) : 0 ≤ m s e := by
  rcases h s e with h01 | h01 <;> simp [h01]

lemma one_hot_isBinary {S E : ℕ} (i : Fin S → Fin E) :
    IsBinary (fun s => one_hot (i s)) := by
  intro s e
  by_cases h : e = i s <;> simp [one_hot, h]

lemma apply_input_mask_isBinary {S E : ℕ} (im : Option (Fin S → Bool))
    {m : Fin S → Fin E → ℤ} (hm : IsBinary m) : IsBinary (apply_input_mask im m) := by
  intro s e
  cases im with
  | none => exact hm s e
  | some p =>
    simp only [apply_input_mask]
    by_cases hp : ∃ s, p s = true
    · rw [if_pos hp]
      rcases hm s e with h01 | h01 <;> by_cases hps : p s <;> simp [h01, hps]
    · rw [if_neg hp]; exact hm s e

lemma mul_ite_isBinary {S E : ℕ} {m : Fin S → Fin E → ℤ} (hm : IsBinary m)
    (P : Fin S → Fin E → Prop) [∀ s e, Decidable (P s e)] :
    IsBinary (fun s e => m s e * (if P s e then 1 else 0)) := by
  intro s e
  rcases hm s e with h01 | h01 <;> by_cases hp : P s e <;> simp [h01, hp]

/-- A binary value times a 0/1 indicator equals 1 only when both factors are 1. -/
lemma mul_ind_eq_one {a : ℤ} (ha : a = 0 ∨ a = 1) {P : Prop} [Decidable P]
    (h : a * (if P then 1 else 0) = 1) : a = 1 ∧ P := by
  by_cases hp : P
  · rcases ha with h0 | h1
    · rw [h0] at h; simp at h
    · exact ⟨h1, hp⟩
  · rw [if_neg hp] at h; simp at h

lemma routing_mask1_raw_isBinary {S E : ℕ} (hE : 0 < E) (gates : Fin S → Fin E → ℚ) :
    IsBinary (routing_mask1_raw hE gates) :=
  one_hot_isBinary (routing_indices1 hE gates)

lemma routing_mask1_isBinary {S E : ℕ} (hE : 0 < E) (gates : Fin S → Fin E → ℚ)
    (im : Option (Fin S → Bool)) : IsBinary (routing_mask1 hE gates im) :=
  apply_input_mask_isBinary im (routing_mask1_raw_isBinary hE gates)

lemma top2_mask2_raw_isBinary {S E : ℕ} (hE : 0 < E)
    (gates logits noise : Fin S → Fin E → ℚ) (policy : SecondPolicy) :
    IsBinary (top2_mask2_raw hE gates logits noise policy) :=
  one_hot_isBinary (top2_indices2 hE gates logits noise policy)

lemma top2_mask2_thinned_isBinary {S E : ℕ} (hE : 0 < E)
    (gates logits noise : Fin S → Fin E → ℚ) (rand : Fin S → ℚ)
    (policy : SecondPolicy) (nb : Bool) :
    IsBinary (top2_mask2_thinned hE gates logits noise rand policy nb) := by
  unfold top2_mask2_thinned
  by_cases h : policy = SecondPolicy.random
  · rw [if_pos h]
    exact mul_ite_isBinary (top2_mask2_raw_isBinary hE gates logits noise policy) _
  · rw [if_neg h]
    exact top2_mask2_raw_isBinary hE gates logits noise policy

lemma top2_mask1_isBinary {S E : ℕ} (hE : 0 < E) (gates : Fin S → Fin E → ℚ)
    (cfg : Top2Config S) : IsBinary (top2_mask1 (E := E) hE gates cfg) :=
  routing_mask1_isBinary hE gates cfg.input_mask

lemma top2_mask2_isBinary {S E : ℕ} (hE : 0 < E)
    (gates logits noise : Fin S → Fin E → ℚ) (rand : Fin S → ℚ) (cfg : Top2Config S) :
    IsBinary (top2_mask2 hE gates logits noise rand cfg) :=
  apply_input_mask_isBinary cfg.input_mask
    (top2_mask2_thinned_isBinary hE gates logits noise rand _ _)

lemma top1_mask1_capped_isBinary {S E : ℕ} (hE : 0 < E) (gates : Fin S → Fin E → ℚ)
    (im : Option (Fin S → Bool)) (cf : ℚ) (em : Bool) (frac : ℚ) :
    IsBinary (top1_mask1_capped hE gates im cf em frac) :=
  mul_ite_isBinary (routing_mask1_isBinary hE gates im) _

lemma top2_mask1_capped_isBinary {S E : ℕ} (hE : 0 < E) (gates : Fin S → Fin E → ℚ)
    (cfg : Top2Config S) : IsBinary (top2_mask1_capped hE gates cfg) :=
  mul_ite_isBinary (top2_mask1_isBinary hE gates cfg) _

lemma top2_mask2_capped_isBinary {S E : ℕ} (hE : 0 < E)
    (gates logits noise : Fin S → Fin E → ℚ) (rand : Fin S → ℚ) (cfg : Top2Config S) :
    IsBinary (top2_mask2_capped hE gates logits noise rand cfg) :=
  mul_ite_isBinary (top2_mask2_isBinary hE gates logits noise rand cfg) _


lemma one_hot_eq_zero {E : ℕ} {i j : Fin E} (h : j ≠ i) : one_hot i j = 0 :=
  if_neg h

lemma one_hot_self {E : ℕ} (i : Fin E) : one_hot i i = 1 :=
  if_pos rfl

lemma apply_input_mask_eq_zero {S E : ℕ} (im : Option (Fin S → Bool))
    {m : Fin S → Fin E → ℤ} {s : Fin S} {e : Fin E} (h : m s e = 0) :
    apply_input_mask im m s e = 0 := by
  cases im with
  | none => exact h
  | some p =>
    simp only [apply_input_mask]
    by_cases hp : ∃ s, p s = true
    · rw [if_pos hp, h, zero_mul]
    · rw [if_neg hp]; exact h

lemma routing_mask1_eq_zero {S E : ℕ} (hE : 0 < E) (gates : Fin S → Fin E → ℚ)
    (im : Option (Fin S → Bool)) {s : Fin S} {e : Fin E}
    (h : e ≠ routing_indices1 hE gates s) : routing_mask1 hE gates im s e = 0 :=
  apply_input_mask_eq_zero im (one_hot_eq_zero h)

lemma top1_mask1_capped_eq_zero {S E : ℕ} (hE : 0 < E) (gates : Fin S → Fin E → ℚ)
    (im : Option (Fin S → Bool)) (cf : ℚ) (em : Bool) (frac : ℚ) {s : Fin S} {e : Fin E}
    (h : e ≠ routing_indices1 hE gates s) :
    top1_mask1_capped hE gates im cf em frac s e = 0 := by
  unfold top1_mask1_capped
  rw [routing_mask1_eq_zero hE gates im h, zero_mul]

lemma top2_mask1_capped_eq_zero {S E : ℕ} (hE : 0 < E) (gates : Fin S → Fin E → ℚ)
    (cfg : Top2Config S) {s : Fin S} {e : Fin E}
    (h : e ≠ routing_indices1 hE gates s) :
    top2_mask1_capped hE gates cfg s e = 0 := by
  unfold top2_mask1_capped top2_mask1
  rw [routing_mask1_eq_zero hE gates cfg.input_mask h, zero_mul]

lemma top2_mask2_thinned_eq_zero {S E : ℕ} (hE : 0 < E)
    (gates logits noise : Fin S → Fin E → ℚ) (rand : Fin S → ℚ)
    (policy : SecondPolicy) (nb : Bool) {s : Fin S} {e : Fin E}
    (h : e ≠ top2_indices2 hE gates logits noise policy s) :
    top2_mask2_thinned hE gates logits noise rand policy nb s e = 0 := by
  unfold top2_mask2_thinned
  by_cases hp : policy = SecondPolicy.random
  · rw [if_pos hp]
    show top2_mask2_raw hE gates logits noise policy s e * _ = 0
    unfold top2_mask2_raw
    rw [one_hot_eq_zero h, zero_mul]
  · rw [if_neg hp]
    exact one_hot_eq_zero h

lemma top2_mask2_eq_zero {S E : ℕ} (hE : 0 < E)
    (gates logits noise : Fin S → Fin E → ℚ) (rand : Fin S → ℚ) (cfg : Top2Config S)
    {s : Fin S} {e : Fin E}
    (h : e ≠ top2_indices2 hE gates logits noise cfg.second_expert_policy s) :
    top2_mask2 hE gates logits noise rand cfg s e = 0 :=
  apply_input_mask_eq_zero cfg.input_mask
    (top2_mask2_thinned_eq_zero hE gates logits noise rand _ _ h)

lemma top2_mask2_capped_eq_zero {S E : ℕ} (hE : 0 < E)
    (gates logits noise : Fin S → Fin E → ℚ) (rand : Fin S → ℚ) (cfg : Top2Config S)
    {s : Fin S} {e : Fin E}
    (h : e ≠ top2_indices2 hE gates logits noise cfg.second_expert_policy s) :
    top2_mask2_capped hE gates logits noise rand cfg s e = 0 := by
  unfold top2_mask2_capped
  rw [top2_mask2_eq_zero hE gates logits noise rand cfg h, zero_mul]

lemma fcso_nonneg {S E : ℕ} {mask : Fin S → Fin E → ℤ} (h : IsBinary mask)
    (s : Fin S) (e : Fin E) : 0 ≤ fused_cumsum_sub_one mask s e :=
  Finset.sum_nonneg fun t _ => h.nonneg t e

lemma fcso_strict_mono {S E : ℕ} {mask : Fin S → Fin E → ℤ} (h : IsBinary mask)
    {i j : Fin S} (e : Fin E) (hij : i < j) (hi : mask i e = 1) :
    fused_cumsum_sub_one mask i e < fused_cumsum_sub_one mask j e := by
  unfold fused_cumsum_sub_one
  have hnotmem : i ∉ Finset.univ.filter (fun t : Fin S => t < i) := by simp
  have hsub : insert i (Finset.univ.filter (fun t : Fin S => t < i)) ⊆
      Finset.univ.filter (fun t : Fin S => t < j) := by
    intro t ht
    rcases Finset.mem_insert.mp ht with rfl | htl
    · simp [hij]
    · simp only [Finset.mem_filter, Finset.mem_univ, true_and] at htl ⊢
      exact lt_trans htl hij
  calc ∑ t ∈ Finset.univ.filter (fun t : Fin S => t < i), mask t e
      < ∑ t ∈ insert i (Finset.univ.filter (fun t : Fin S => t < i)), mask t e := by
        rw [Finset.sum_insert hnotmem, hi]; omega
    _ ≤ ∑ t ∈ Finset.univ.filter (fun t : Fin S => t < j), mask t e :=
        Finset.sum_le_sum_of_subset_of_nonneg hsub fun t _ _ => h.nonneg t e

lemma fcso_lt_colsum {S E : ℕ} {mask : Fin S → Fin E → ℤ} (h : IsBinary mask)
    {s : Fin S} {e : Fin E} (hs : mask s e = 1) :
    fused_cumsum_sub_one mask s e < col_sum mask e := by
  unfold fused_cumsum_sub_one col_sum
  have hnotmem : s ∉ Finset.univ.filter (fun t : Fin S => t < s) := by simp
  calc ∑ t ∈ Finset.univ.filter (fun t : Fin S => t < s), mask t e
      < ∑ t ∈ insert s (Finset.univ.filter (fun t : Fin S => t < s)), mask t e := by
        rw [Finset.sum_insert hnotmem, hs]; omega
    _ ≤ ∑ t, mask t e :=
        Finset.sum_le_sum_of_subset_of_nonneg (Finset.subset_univ _)
          fun t _ _ => h.nonneg t e

lemma bpr_locations_sel {S E : ℕ} (σ : Equiv.Perm (Fin S)) {mask : Fin S → Fin E → ℤ}
    {s : Fin S} {e : Fin E} (hs : mask s e = 1) :
    bpr_locations σ mask s e =
      fused_cumsum_sub_one (fun t e' => mask (σ t) e') (σ.symm s) e := by
  unfold bpr_locations
  rw [Equiv.apply_symm_apply, hs, mul_one]

lemma isBinary_perm {S E : ℕ} (σ : Equiv.Perm (Fin S)) {mask : Fin S → Fin E → ℤ}
    (h : IsBinary mask) : IsBinary (fun t e' => mask (σ t) e') :=
  fun t e' => h (σ t) e'

lemma sob_nonneg {S E : ℕ} {mask : Fin S → Fin E → ℤ} (h : IsBinary mask)
    (bp : Bool) (σ : Equiv.Perm (Fin S)) {s : Fin S} {e : Fin E} (hs : mask s e = 1) :
    0 ≤ seq_or_bpr_locations bp σ mask s e := by
  unfold seq_or_bpr_locations
  by_cases hbp : bp = true
  · rw [if_pos hbp, bpr_locations_sel σ hs]
    exact fcso_nonneg (isBinary_perm σ h) _ _
  · rw [if_neg hbp]
    exact fcso_nonneg h s e

lemma sob_lt_colsum {S E : ℕ} {mask : Fin S → Fin E → ℤ} (h : IsBinary mask)
    (bp : Bool) (σ : Equiv.Perm (Fin S)) {s : Fin S} {e : Fin E} (hs : mask s e = 1) :
    seq_or_bpr_locations bp σ mask s e < col_sum mask e := by
  unfold seq_or_bpr_locations
  by_cases hbp : bp = true
  · rw [if_pos hbp, bpr_locations_sel σ hs]
    have hsel : (fun t e' => mask (σ t) e') (σ.symm s) e = 1 := by
      simp only [Equiv.apply_symm_apply]; exact hs
    calc fused_cumsum_sub_one (fun t e' => mask (σ t) e') (σ.symm s) e
        < col_sum (fun t e' => mask (σ t) e') e := fcso_lt_colsum (isBinary_perm σ h) hsel
      _ = col_sum mask e := by
          unfold col_sum
          exact Equiv.sum_comp σ fun t => mask t e
  · rw [if_neg hbp]
    exact fcso_lt_colsum h hs

lemma sob_inj {S E : ℕ} {mask : Fin S → Fin E → ℤ} (h : IsBinary mask)
    (bp : Bool) (σ : Equiv.Perm (Fin S)) {s s' : Fin S} {e : Fin E}
    (hs : mask s e = 1) (hs' : mask s' e = 1) (hne : s ≠ s') :
    seq_or_bpr_locations bp σ mask s e ≠ seq_or_bpr_locations bp σ mask s' e := by
  unfold seq_or_bpr_locations
  by_cases hbp : bp = true
  · rw [if_pos hbp, bpr_locations_sel σ hs, bpr_locations_sel σ hs']
    have hperm := isBinary_perm σ h
    have hsel : (fun t e' => mask (σ t) e') (σ.symm s) e = 1 := by
      simp only [Equiv.apply_symm_apply]; exact hs
    have hsel' : (fun t e' => mask (σ t) e') (σ.symm s') e = 1 := by
      simp only [Equiv.apply_symm_apply]; exact hs'
    have hnesym : σ.symm s ≠ σ.symm s' := fun hcon => hne (σ.symm.injective hcon)
    rcases lt_or_gt_of_ne hnesym with hlt | hgt
    · exact ne_of_lt (fcso_strict_mono hperm e hlt hsel)
    · exact (ne_of_lt (fcso_strict_mono hperm e hgt hsel')).symm
  · rw [if_neg hbp]
    rcases lt_or_gt_of_ne hne with hlt | hgt
    · exact ne_of_lt (fcso_strict_mono h e hlt hs)
    · exact (ne_of_lt (fcso_strict_mono h e hgt hs')).symm

lemma one_hot_loc_some {S : ℕ} {C : ℤ} {idx : Fin S → ℤ} {l : Fin S → ℕ → ℤ}
    (h : one_hot_loc C idx = some l) :
    (0 ≤ C ∧ ∀ s, 0 ≤ idx s ∧ idx s < C) ∧
      l = fun s (c : ℕ) => if (c : ℤ) = idx s then (1 : ℤ) else 0 := by
  unfold one_hot_loc at h
  by_cases hc : 0 ≤ C ∧ ∀ s, 0 ≤ idx s ∧ idx s < C
  · rw [if_pos hc] at h
    exact ⟨hc, (Option.some_inj.mp h).symm⟩
  · rw [if_neg hc] at h
    cases h

lemma one_hot_loc_none {S : ℕ} {C : ℤ} {idx : Fin S → ℤ}
    (h : ¬(0 ≤ C ∧ ∀ s, 0 ≤ idx s ∧ idx s < C)) : one_hot_loc C idx = none :=
  if_neg h

/-- Structure of a successful dense top1gating call: the bound check of the slot
one-hot passed and the returned fields are the assembled tensors. -/
lemma top1gating_some {S E : ℕ} {hE : 0 < E} {gates : Fin S → Fin E → ℚ}
    {im : Option (Fin S → Bool)} {cf : ℚ} {em : Bool} {frac : ℚ} {r : GatingResult S E}
    (h : top1gating hE gates im cf em frac = some r) :
    (0 ≤ top1_capacity S E cf em frac ∧
        ∀ s, 0 ≤ top1_locations1_s hE gates im cf em frac s ∧
          top1_locations1_s hE gates im cf em frac s < top1_capacity S E cf em frac) ∧
      r.l_aux = routing_l_aux gates (routing_mask1 hE gates im) ∧
      r.combine = (fun s e (c : ℕ) =>
        (top1_gates1_s hE gates im s *
            ((top1_mask1_capped hE gates im cf em frac s e : ℤ) : ℚ)) *
          (((if (c : ℤ) = top1_locations1_s hE gates im cf em frac s then (1 : ℤ) else 0) : ℤ) : ℚ)) ∧
      r.dispatch = fun s e c => decide (r.combine s e c ≠ 0) := by
  unfold top1gating at h
  rcases Option.map_eq_some'.mp h with ⟨l, hl, hr⟩
  obtain ⟨hcond, hleq⟩ := one_hot_loc_some hl
  subst hleq
  subst hr
  exact ⟨hcond, rfl, rfl, rfl⟩

/-- Structure of a successful dense top2gating call. -/
lemma top2gating_some {S E : ℕ} {hE : 0 < E} {gates logits noise : Fin S → Fin E → ℚ}
    {rand : Fin S → ℚ} {cfg : Top2Config S} {r : GatingResult S E}
    (h : top2gating hE gates logits noise rand cfg = some r) :
    (0 ≤ top2_capacity S E cfg.eval_mode cfg.moe_eval_capacity_token_fraction ∧
        ∀ s, 0 ≤ top2_locations1_s hE gates logits noise rand cfg s ∧
          top2_locations1_s hE gates logits noise rand cfg s <
            top2_capacity S E cfg.eval_mode cfg.moe_eval_capacity_token_fraction) ∧
      (∀ s, 0 ≤ top2_locations2_s hE gates logits noise rand cfg s ∧
          top2_locations2_s hE gates logits noise rand cfg s <
            top2_capacity S E cfg.eval_mode cfg.moe_eval_capacity_token_fraction) ∧
      r.l_aux = routing_l_aux gates (top2_mask1 hE gates cfg) ∧
      r.combine = (fun s e (c : ℕ) =>
        (top2_gates1_s_final hE gates logits noise rand cfg s *
              ((top2_mask1_capped hE gates cfg s e : ℤ) : ℚ)) *
            (((if (c : ℤ) = top2_locations1_s hE gates logits noise rand cfg s
                then (1 : ℤ) else 0) : ℤ) : ℚ) +
          (top2_gates2_s_final hE gates logits noise rand cfg s *
              ((top2_mask2_capped hE gates logits noise rand cfg s e : ℤ) : ℚ)) *
            (((if (c : ℤ) = top2_locations2_s hE gates logits noise rand cfg s
                then (1 : ℤ) else 0) : ℤ) : ℚ)) ∧
      r.dispatch = fun s e c => decide (r.combine s e c ≠ 0) := by
  unfold top2gating at h
  rcases Option.bind_eq_some.mp h with ⟨l1, hl1, h2⟩
  rcases Option.map_eq_some'.mp h2 with ⟨l2, hl2, hr⟩
  obtain ⟨hcond1, hl1eq⟩ := one_hot_loc_some hl1
  obtain ⟨hcond2, hl2eq⟩ := one_hot_loc_some hl2
  subst hl1eq
  subst hl2eq
  subst hr
  exact ⟨hcond1, hcond2.2, rfl, rfl, rfl⟩

lemma top1_capped_sel {S E : ℕ} {hE : 0 < E} {gates : Fin S → Fin E → ℚ}
    {im : Option (Fin S → Bool)} {cf : ℚ} {em : Bool} {frac : ℚ} {s : Fin S} {e : Fin E}
    (h : top1_mask1_capped hE gates im cf em frac s e = 1) :
    routing_mask1 hE gates im s e = 1 ∧
      top1_locations1 hE gates im s e < top1_capacity S E cf em frac := by
  unfold top1_mask1_capped at h
  exact mul_ind_eq_one (routing_mask1_isBinary hE gates im s e) h

lemma top2_capped1_sel {S E : ℕ} {hE : 0 < E} {gates : Fin S → Fin E → ℚ}
    {cfg : Top2Config S} {s : Fin S} {e : Fin E}
    (h : top2_mask1_capped hE gates cfg s e = 1) :
    top2_mask1 hE gates cfg s e = 1 ∧
      top2_locations1 hE gates cfg s e <
        top2_capacity S E cfg.eval_mode cfg.moe_eval_capacity_token_fraction := by
  unfold top2_mask1_capped at h
  exact mul_ind_eq_one (top2_mask1_isBinary hE gates cfg s e) h

lemma top2_capped2_sel {S E : ℕ} {hE : 0 < E} {gates logits noise : Fin S → Fin E → ℚ}
    {rand : Fin S → ℚ} {cfg : Top2Config S} {s : Fin S} {e : Fin E}
    (h : top2_mask2_capped hE gates logits noise rand cfg s e = 1) :
    top2_mask2 hE gates logits noise rand cfg s e = 1 ∧
      top2_locations2 hE gates logits noise rand cfg s e <
        top2_capacity S E cfg.eval_mode cfg.moe_eval_capacity_token_fraction := by
  unfold top2_mask2_capped at h
  exact mul_ind_eq_one (top2_mask2_isBinary hE gates logits noise rand cfg s e) h

lemma top1_locations1_s_sel {S E : ℕ} {hE : 0 < E} {gates : Fin S → Fin E → ℚ}
    {im : Option (Fin S → Bool)} {cf : ℚ} {em : Bool} {frac : ℚ} {s : Fin S} {e : Fin E}
    (hcap : top1_mask1_capped hE gates im cf em frac s e = 1) :
    top1_locations1_s hE gates im cf em frac s = top1_locations1 hE gates im s e := by
  have hidx : e = routing_indices1 hE gates s := by
    by_contra hne
    rw [top1_mask1_capped_eq_zero hE gates im cf em frac hne] at hcap
    exact absurd hcap (by norm_num)
  unfold top1_locations1_s
  rw [Finset.sum_eq_single e]
  · rw [hcap, mul_one]
  · intro e' _ hne
    rw [top1_mask1_capped_eq_zero hE gates im cf em frac
      (fun hcon => hne (by rw [hcon, ← hidx])), mul_zero]
  · intro hmem
    exact absurd (Finset.mem_univ e) hmem

lemma top2_locations1_s_sel {S E : ℕ} {hE : 0 < E} {gates logits noise : Fin S → Fin E → ℚ}
    {rand : Fin S → ℚ} {cfg : Top2Config S} {s : Fin S} {e : Fin E}
    (hcap : top2_mask1_capped hE gates cfg s e = 1) :
    top2_locations1_s hE gates logits noise rand cfg s = top2_locations1 hE gates cfg s e := by
  have hidx : e = routing_indices1 hE gates s := by
    by_contra hne
    rw [top2_mask1_capped_eq_zero hE gates cfg hne] at hcap
    exact absurd hcap (by norm_num)
  unfold top2_locations1_s
  rw [Finset.sum_eq_single e]
  · rw [hcap, mul_one]
  · intro e' _ hne
    rw [top2_mask1_capped_eq_zero hE gates cfg
      (fun hcon => hne (by rw [hcon, ← hidx])), mul_zero]
  · intro hmem
    exact absurd (Finset.mem_univ e) hmem

lemma top2_locations2_s_sel {S E : ℕ} {hE : 0 < E} {gates logits noise : Fin S → Fin E → ℚ}
    {rand : Fin S → ℚ} {cfg : Top2Config S} {s : Fin S} {e : Fin E}
    (hcap : top2_mask2_capped hE gates logits noise rand cfg s e = 1) :
    top2_locations2_s hE gates logits noise rand cfg s =
      top2_locations2 hE gates logits noise rand cfg s e := by
  have hidx : e = top2_indices2 hE gates logits noise cfg.second_expert_policy s := by
    by_contra hne
    rw [top2_mask2_capped_eq_zero hE gates logits noise rand cfg hne] at hcap
    exact absurd hcap (by norm_num)
  unfold top2_locations2_s
  rw [Finset.sum_eq_single e]
  · rw [hcap, mul_one]
  · intro e' _ hne
    rw [top2_mask2_capped_eq_zero hE gates logits noise rand cfg
      (fun hcon => hne (by rw [hcon, ← hidx])), mul_zero]
  · intro hmem
    exact absurd (Finset.mem_univ e) hmem

/-- The second-choice argmax avoids the first-choice expert as soon as there are
at least two experts: the first-choice entry is minus infinity while every other
entry is finite. -/
lemma top2_indices2_ne {S E : ℕ} (hE : 0 < E) (hE2 : 2 ≤ E)
    (gates logits noise : Fin S → Fin E → ℚ) (policy : SecondPolicy) (s : Fin S) :
    top2_indices2 hE gates logits noise policy s ≠ routing_indices1 hE gates s := by
  intro hcon
  have hnt : Nontrivial (Fin E) := Fin.nontrivial_iff_two_le.mpr hE2
  obtain ⟨e', he'⟩ := exists_ne (routing_indices1 hE gates s)
  have hle := argmaxFin_le hE (top2_logits_except1 hE gates logits noise policy s) e'
  have hbot : top2_logits_except1 hE gates logits noise policy s
      (routing_indices1 hE gates s) = ⊥ := by
    unfold top2_logits_except1
    rw [if_pos]
    show routing_mask1_raw hE gates s _ ≠ 0
    unfold routing_mask1_raw
    rw [one_hot_self]
    norm_num
  have hcoe : top2_logits_except1 hE gates logits noise policy s e' =
      ((top2_logits_w_noise policy logits noise s e' : ℚ) : WithBot ℚ) := by
    unfold top2_logits_except1
    rw [if_neg]
    show ¬routing_mask1_raw hE gates s e' ≠ 0
    unfold routing_mask1_raw
    rw [one_hot_eq_zero he']
    norm_num
  have hidx : argmaxFin hE (top2_logits_except1 hE gates logits noise policy s) =
      routing_indices1 hE gates s := hcon
  rw [hidx, hbot, hcoe] at hle
  exact WithBot.not_coe_le_bot _ hle

lemma apply_input_mask_flagged {S E : ℕ} {m : Fin S → Bool} {mask : Fin S → Fin E → ℤ}
    {s : Fin S} (hs : m s = true) (e : Fin E) :
    apply_input_mask (some m) mask s e = 0 := by
  show (if ∃ s, m s = true then fun s e => mask s e * (if m s = true then 0 else 1)
      else mask) s e = 0
  rw [if_pos ⟨s, hs⟩]
  simp [hs]

/-- C8: in top1gating, every row of the first-choice selection mask has at most
one nonzero entry, and every row flagged true by the optional padding mask is
entirely zero. -/
theorem claim_C8_top1_mask_row (S E : ℕ) (hE : 0 < E) (gates : Fin S → Fin E → ℚ)
    (im : Option (Fin S → Bool)) :
    (∀ s, (Finset.univ.filter fun e => routing_mask1 hE gates im s e ≠ 0).card ≤ 1) ∧
      (∀ m, im = some m → ∀ s, m s = true → ∀ e, routing_mask1 hE gates im s e = 0) := by
  constructor
  · intro s
    have hsub : (Finset.univ.filter fun e => routing_mask1 hE gates im s e ≠ 0) ⊆
        {routing_indices1 hE gates s} := by
      intro e he
      rcases Finset.mem_filter.mp he with ⟨_, hne0⟩
      rw [Finset.mem_singleton]
      by_contra hnot
      exact hne0 (routing_mask1_eq_zero hE gates im hnot)
    calc (Finset.univ.filter fun e => routing_mask1 hE gates im s e ≠ 0).card
        ≤ ({routing_indices1 hE gates s} : Finset (Fin E)).card := Finset.card_le_card hsub
      _ = 1 := Finset.card_singleton _
  · rintro m rfl s hs e
    exact apply_input_mask_flagged hs e

/-- C2, amended to at least two experts: for every input and every second-expert
policy, the second-choice argmax differs from the first choice of the same
token, hence mask1 and mask2 never both select the same expert for a token.
With a single expert the two masks coincide instead (see the counterexample). -/
theorem claim_C2_disjoint_masks {S E : ℕ} (hE : 0 < E) (hE2 : 2 ≤ E)
    (gates logits noise : Fin S → Fin E → ℚ) (policy : SecondPolicy) (s : Fin S) :
    top2_indices2 hE gates logits noise policy s ≠ routing_indices1 hE gates s ∧
      ∀ e, routing_mask1_raw hE gates s e = 0 ∨
        top2_mask2_raw hE gates logits noise policy s e = 0 := by
  have hne := top2_indices2_ne hE hE2 gates logits noise policy s
  refine ⟨hne, fun e => ?_⟩
  by_cases h1 : e = routing_indices1 hE gates s
  · right
    unfold top2_mask2_raw
    exact one_hot_eq_zero fun hcon => hne (hcon.symm.trans h1)
  · left
    exact one_hot_eq_zero h1

/-- C2 counterexample: with a single expert (E = 1, a value the claim allows),
the one-token first-choice and second-choice masks of top2gating both select
expert 0, so the masks are not disjoint. -/
theorem claim_C2_counterexample :
    ¬(routing_mask1_raw (S := 1) (E := 1) Nat.one_pos (fun _ _ => 1) 0 0 = 0 ∨
      top2_mask2_raw (S := 1) (E := 1) Nat.one_pos (fun _ _ => 1) (fun _ _ => 0)
        (fun _ _ => 0) SecondPolicy.other 0 0 = 0) := by
  rintro (h | h) <;>
    simp [routing_mask1_raw, top2_mask2_raw, one_hot, routing_indices1, top2_indices2,
      argmaxFin, argmaxAux, List.finRange, List.ofFn, top2_logits_except1,
      top2_logits_w_noise, Fin.ext_iff] at h

/-- C7, amended: the eval-mode capacity is ceil(frac * S) for both routers; the
non-eval top1 capacity is the Python int() of capacity_factor * ceil(S / E),
which is truncation toward zero and agrees with floor exactly when the
multiplier is nonnegative; the non-eval top2 capacity is 2 * ceil(S / E). -/
theorem claim_C7_capacity_formula (S E : ℕ) (cf frac : ℚ) (em : Bool) :
    (em = true ∧ 0 < frac →
      top1_capacity S E cf em frac = ⌈frac * (S : ℚ)⌉ ∧
        top2_capacity S E em frac = ⌈frac * (S : ℚ)⌉) ∧
      (¬(em = true ∧ 0 < frac) →
        top1_capacity S E cf em frac = pyInt (cf * ((⌈(S : ℚ) / (E : ℚ)⌉ : ℤ) : ℚ)) ∧
          (0 ≤ cf →
            top1_capacity S E cf em frac = ⌊cf * ((⌈(S : ℚ) / (E : ℚ)⌉ : ℤ) : ℚ)⌋) ∧
          top2_capacity S E em frac = 2 * ⌈(S : ℚ) / (E : ℚ)⌉) := by
  constructor
  · rintro ⟨hem, hfrac⟩
    unfold top1_capacity top2_capacity
    rw [if_pos ⟨hfrac, hem⟩, if_pos ⟨hfrac, hem⟩]
    exact ⟨rfl, rfl⟩
  · intro hnot
    have hnot' : ¬(0 < frac ∧ em = true) := fun hc => hnot ⟨hc.2, hc.1⟩
    unfold top1_capacity top2_capacity
    rw [if_neg hnot', if_neg hnot']
    refine ⟨rfl, ?_, rfl⟩
    intro hcf
    unfold pyInt
    rw [if_pos]
    have h1 : (0 : ℤ) ≤ ⌈(S : ℚ) / (E : ℚ)⌉ :=
      Int.ceil_nonneg (div_nonneg (Nat.cast_nonneg S) (Nat.cast_nonneg E))
    have h2 : (0 : ℚ) ≤ ((⌈(S : ℚ) / (E : ℚ)⌉ : ℤ) : ℚ) := by exact_mod_cast h1
    exact mul_nonneg hcf h2

/-- C7 counterexample: with a negative capacity multiplier the code computes
int(-1/2 * 1) = 0 while the floor of the claim is -1; int() truncates toward
zero rather than flooring. -/
theorem claim_C7_counterexample :
    top1_capacity 1 2 (-(1/2)) false (1/4) = 0 ∧
      ⌊(-(1/2) : ℚ) * ((⌈(1 : ℚ) / (2 : ℚ)⌉ : ℤ) : ℚ)⌋ = -1 := by
  have hceil : (⌈(1 : ℚ) / (2 : ℚ)⌉ : ℤ) = 1 := by
    rw [Int.ceil_eq_iff] <;> norm_num
  have hceil2 : (⌈((1 : ℕ) : ℚ) / ((2 : ℕ) : ℚ)⌉ : ℤ) = 1 := by
    rw [Int.ceil_eq_iff] <;> norm_num
  constructor
  · unfold top1_capacity pyInt
    rw [if_neg (by simp), hceil2]
    norm_num [Int.ceil_eq_iff]
  · rw [hceil]
    norm_num

/-- C5: in sequence-order admission (batch-prioritized routing disabled), for
both routers, two tokens admitted to the same first-choice expert receive
strictly increasing slot locations in batch order, and the candidate slots are
the exclusive per-column running count of the selection mask. -/
theorem claim_C5_admission_order :
    (∀ (S E : ℕ) (hE : 0 < E) (gates : Fin S → Fin E → ℚ) (im : Option (Fin S → Bool))
        (cf : ℚ) (em : Bool) (frac : ℚ) (i j : Fin S) (e : Fin E),
        i < j →
        top1_mask1_capped hE gates im cf em frac i e = 1 →
        top1_mask1_capped hE gates im cf em frac j e = 1 →
        top1_locations1_s hE gates im cf em frac i <
          top1_locations1_s hE gates im cf em frac j) ∧
      (∀ (S E : ℕ) (hE : 0 < E) (gates : Fin S → Fin E → ℚ) (im : Option (Fin S → Bool)),
        top1_locations1 hE gates im = fused_cumsum_sub_one (routing_mask1 hE gates im)) ∧
      (∀ (S E : ℕ) (hE : 0 < E) (gates logits noise : Fin S → Fin E → ℚ)
          (rand : Fin S → ℚ) (cfg : Top2Config S),
        cfg.batch_prioritized_routing = false →
        (∀ (i j : Fin S) (e : Fin E),
            i < j →
            top2_mask1_capped hE gates cfg i e = 1 →
            top2_mask1_capped hE gates cfg j e = 1 →
            top2_locations1_s hE gates logits noise rand cfg i <
              top2_locations1_s hE gates logits noise rand cfg j) ∧
          top2_locations1 hE gates cfg = fused_cumsum_sub_one (top2_mask1 hE gates cfg)) := by
  refine ⟨?_, ?_, ?_⟩
  · intro S E hE gates im cf em frac i j e hij hi hj
    rw [top1_locations1_s_sel hi, top1_locations1_s_sel hj]
    exact fcso_strict_mono (routing_mask1_isBinary hE gates im) e hij (top1_capped_sel hi).1
  · intro S E hE gates im
    rfl
  · intro S E hE gates logits noise rand cfg hbp
    have hseq : top2_locations1 hE gates cfg =
        fused_cumsum_sub_one (top2_mask1 hE gates cfg) := by
      unfold top2_locations1 seq_or_bpr_locations
      rw [hbp]
      simp
    constructor
    · intro i j e hij hi hj
      rw [top2_locations1_s_sel hi, top2_locations1_s_sel hj, hseq]
      exact fcso_strict_mono (top2_mask1_isBinary hE gates cfg) e hij (top2_capped1_sel hi).1
    · exact hseq

lemma fcso_inj {S E : ℕ} {mask : Fin S → Fin E → ℤ} (h : IsBinary mask)
    {s s' : Fin S} {e : Fin E} (hs : mask s e = 1) (hs' : mask s' e = 1) (hne : s ≠ s') :
    fused_cumsum_sub_one mask s e ≠ fused_cumsum_sub_one mask s' e := by
  rcases lt_or_gt_of_ne hne with hlt | hgt
  · exact ne_of_lt (fcso_strict_mono h e hlt hs)
  · exact (ne_of_lt (fcso_strict_mono h e hgt hs')).symm

/-- C3, amended: when the computed capacity is zero and the batch holds at least
one token, the dense top1gating path fails (the slot one-hot scatter bound check
rejects slot index 0 when there are zero classes) instead of completing with
all-zero combine weights. -/
theorem claim_C3_zero_capacity_errors {S E : ℕ} (hE : 0 < E) (hS : 0 < S)
    (gates : Fin S → Fin E → ℚ) (im : Option (Fin S → Bool)) (cf : ℚ) (em : Bool)
    (frac : ℚ) (hcap : top1_capacity S E cf em frac = 0) :
    top1gating hE gates im cf em frac = none := by
  have hnone : one_hot_loc (top1_capacity S E cf em frac)
      (top1_locations1_s hE gates im cf em frac) = none := by
    apply one_hot_loc_none
    rintro ⟨h0, hall⟩
    have h := hall ⟨0, hS⟩
    rw [hcap] at h
    omega
  unfold top1gating
  rw [hnone]
  rfl

/-- C3 counterexample: one token, two experts, capacity multiplier 1/2 give
capacity int(1/2) = 0, and the dense top1gating call errors out rather than
returning all-zero combine weights as the claim states. -/
theorem claim_C3_counterexample :
    top1gating (S := 1) (E := 2) two_pos
      (fun _ e => if e = 0 then (3/5 : ℚ) else 2/5) none (1/2) false (1/4) = none := by
  have hceil2 : (⌈((1 : ℕ) : ℚ) / ((2 : ℕ) : ℚ)⌉ : ℤ) = 1 := by
    rw [Int.ceil_eq_iff] <;> norm_num
  have hcap : top1_capacity 1 2 (1/2) false (1/4) = 0 := by
    unfold top1_capacity pyInt
    rw [if_neg (by simp), hceil2]
    norm_num
  have hnone : one_hot_loc (top1_capacity 1 2 (1/2) false (1/4))
      (top1_locations1_s (S := 1) (E := 2) two_pos
        (fun _ e => if e = 0 then (3/5 : ℚ) else 2/5) none (1/2) false (1/4)) = none := by
    apply one_hot_loc_none
    rintro ⟨h0, hall⟩
    have h := hall 0
    rw [hcap] at h
    omega
  unfold top1gating
  rw [hnone]
  rfl

/-- C9: the routers are deterministic in their inputs outside the stochastic
policies: top1gating consumes no randomness, and top2gating under a policy other
than sampling and random returns the same result for any two draws of the
Gumbel noise and of the uniform samples. -/
theorem claim_C9_deterministic :
    (∀ (S E : ℕ) (hE : 0 < E) (gates : Fin S → Fin E → ℚ) (im : Option (Fin S → Bool))
        (cf : ℚ) (em : Bool) (frac : ℚ),
      top1gating hE gates im cf em frac = top1gating hE gates im cf em frac) ∧
      (∀ (S E : ℕ) (hE : 0 < E) (gates logits n1 n2 : Fin S → Fin E → ℚ)
          (r1 r2 : Fin S → ℚ) (im : Option (Fin S → Bool)) (nb em : Bool) (frac : ℚ)
          (bp : Bool) (σ : Equiv.Perm (Fin S)),
        top2gating hE gates logits n1 r1 ⟨im, SecondPolicy.other, nb, em, frac, bp, σ⟩ =
          top2gating hE gates logits n2 r2 ⟨im, SecondPolicy.other, nb, em, frac, bp, σ⟩) := by
  constructor
  · intro S E hE gates im cf em frac
    rfl
  · intro S E hE gates logits n1 n2 r1 r2 im nb em frac bp σ
    rfl

lemma top2_loc1_lt_colsum {S E : ℕ} {hE : 0 < E} {gates : Fin S → Fin E → ℚ}
    {cfg : Top2Config S} {s : Fin S} {e : Fin E}
    (h : top2_mask1_capped hE gates cfg s e = 1) :
    top2_locations1 hE gates cfg s e < col_sum (top2_mask1 hE gates cfg) e :=
  sob_lt_colsum (top2_mask1_isBinary hE gates cfg) _ _ (top2_capped1_sel h).1

lemma top2_loc2_ge_colsum {S E : ℕ} {hE : 0 < E} {gates logits noise : Fin S → Fin E → ℚ}
    {rand : Fin S → ℚ} {cfg : Top2Config S} {s : Fin S} {e : Fin E}
    (h : top2_mask2_capped hE gates logits noise rand cfg s e = 1) :
    col_sum (top2_mask1 hE gates cfg) e ≤
      top2_locations2 hE gates logits noise rand cfg s e := by
  unfold top2_locations2
  have hnn := sob_nonneg (top2_mask2_isBinary hE gates logits noise rand cfg)
    cfg.batch_prioritized_routing cfg.sort_perm (top2_capped2_sel h).1
  omega

lemma top2_loc1_inj {S E : ℕ} {hE : 0 < E} {gates : Fin S → Fin E → ℚ}
    {cfg : Top2Config S} {s s' : Fin S} {e : Fin E}
    (h : top2_mask1_capped hE gates cfg s e = 1)
    (h' : top2_mask1_capped hE gates cfg s' e = 1) (hne : s ≠ s') :
    top2_locations1 hE gates cfg s e ≠ top2_locations1 hE gates cfg s' e :=
  sob_inj (top2_mask1_isBinary hE gates cfg) _ _
    (top2_capped1_sel h).1 (top2_capped1_sel h').1 hne

lemma top2_loc2_inj {S E : ℕ} {hE : 0 < E} {gates logits noise : Fin S → Fin E → ℚ}
    {rand : Fin S → ℚ} {cfg : Top2Config S} {s s' : Fin S} {e : Fin E}
    (h : top2_mask2_capped hE gates logits noise rand cfg s e = 1)
    (h' : top2_mask2_capped hE gates logits noise rand cfg s' e = 1) (hne : s ≠ s') :
    top2_locations2 hE gates logits noise rand cfg s e ≠
      top2_locations2 hE gates logits noise rand cfg s' e := by
  unfold top2_locations2
  have hinj := sob_inj (top2_mask2_isBinary hE gates logits noise rand cfg)
    cfg.batch_prioritized_routing cfg.sort_perm
    (top2_capped2_sel h).1 (top2_capped2_sel h').1 hne
  omega

/-- C10: in top2gating (either admission mode), two distinct admitted
(token, choice-rank) assignments to the same expert always occupy distinct slot
locations: slots are injective within each rank, and every admitted first-choice
slot lies strictly below the total pre-capacity first-choice count while every
second-choice slot lies at or above it. -/
theorem claim_C10_distinct_slots {S E : ℕ} (hE : 0 < E)
    (gates logits noise : Fin S → Fin E → ℚ) (rand : Fin S → ℚ) (cfg : Top2Config S)
    (e : Fin E) (s1 s2 : Fin S) (r1 r2 : Bool)
    (h1 : (if r1 = true then top2_mask1_capped hE gates cfg s1 e
        else top2_mask2_capped hE gates logits noise rand cfg s1 e) = 1)
    (h2 : (if r2 = true then top2_mask1_capped hE gates cfg s2 e
        else top2_mask2_capped hE gates logits noise rand cfg s2 e) = 1)
    (hne : (r1, s1) ≠ (r2, s2)) :
    (if r1 = true then top2_locations1 hE gates cfg s1 e
        else top2_locations2 hE gates logits noise rand cfg s1 e) ≠
      (if r2 = true then top2_locations1 hE gates cfg s2 e
        else top2_locations2 hE gates logits noise rand cfg s2 e) := by
  cases r1 <;> cases r2 <;>
    simp only [Bool.false_eq_true, if_true, if_false] at h1 h2 ⊢
  · have hs : s1 ≠ s2 := fun hcon => hne (by rw [hcon])
    exact top2_loc2_inj h1 h2 hs
  · intro hcon
    have hlt := top2_loc1_lt_colsum h2
    have hge := top2_loc2_ge_colsum h1
    omega
  · intro hcon
    have hlt := top2_loc1_lt_colsum h1
    have hge := top2_loc2_ge_colsum h2
    omega
  · have hs : s1 ≠ s2 := fun hcon => hne (by rw [hcon])
    exact top2_loc1_inj h1 h2 hs

lemma add_ne_zero_cases {a b : ℚ} (h : a + b ≠ 0) : a ≠ 0 ∨ b ≠ 0 := by
  by_contra hcon
  push_neg at hcon
  rw [hcon.1, hcon.2, add_zero] at h
  exact h rfl

lemma term_ne_zero {g : ℚ} {m : ℤ} (hm : m = 0 ∨ m = 1) {P : Prop} [Decidable P]
    (h : g * (m : ℚ) * (((if P then (1 : ℤ) else 0) : ℤ) : ℚ) ≠ 0) : m = 1 ∧ P := by
  rcases hm with h01 | h01
  · rw [h01] at h
    norm_num at h
  · by_cases hp : P
    · exact ⟨h01, hp⟩
    · rw [if_neg hp] at h
      norm_num at h

/-- C1: on the dense path and for both routers, the number of true dispatch-mask
entries inside any single expert slice is at most the computed capacity, and
every true entry lies inside the capacity slice. -/
theorem claim_C1_capacity_invariant :
    (∀ (S E : ℕ) (hE : 0 < E) (gates : Fin S → Fin E → ℚ) (im : Option (Fin S → Bool))
        (cf : ℚ) (em : Bool) (frac : ℚ) (r : GatingResult S E),
      top1gating hE gates im cf em frac = some r →
      ∀ e : Fin E,
        (∀ s c, r.dispatch s e c = true → c < (top1_capacity S E cf em frac).toNat) ∧
          (((((Finset.univ : Finset (Fin S)) ×ˢ
                Finset.range (top1_capacity S E cf em frac).toNat).filter
                  fun p => r.dispatch p.1 e p.2 = true).card : ℤ) ≤
            top1_capacity S E cf em frac)) ∧
      (∀ (S E : ℕ) (hE : 0 < E) (gates logits noise : Fin S → Fin E → ℚ)
          (rand : Fin S → ℚ) (cfg : Top2Config S) (r : GatingResult S E),
        top2gating hE gates logits noise rand cfg = some r →
        ∀ e : Fin E,
          (∀ s c, r.dispatch s e c = true →
            c < (top2_capacity S E cfg.eval_mode cfg.moe_eval_capacity_token_fraction).toNat) ∧
            (((((Finset.univ : Finset (Fin S)) ×ˢ
                  Finset.range (top2_capacity S E cfg.eval_mode
                    cfg.moe_eval_capacity_token_fraction).toNat).filter
                    fun p => r.dispatch p.1 e p.2 = true).card : ℤ) ≤
              top2_capacity S E cfg.eval_mode cfg.moe_eval_capacity_token_fraction)) := by
  constructor
  · intro S E hE gates im cf em frac r hsome e
    obtain ⟨⟨hC0, hbnd⟩, _, hcomb, hdisp⟩ := top1gating_some hsome
    have hchar : ∀ s c, r.dispatch s e c = true →
        top1_mask1_capped hE gates im cf em frac s e = 1 ∧
          (c : ℤ) = top1_locations1_s hE gates im cf em frac s := by
      intro s c hd
      rw [hdisp] at hd
      have hne := of_decide_eq_true hd
      rw [hcomb] at hne
      exact term_ne_zero (top1_mask1_capped_isBinary hE gates im cf em frac s e) hne
    constructor
    · intro s c hd
      obtain ⟨_, hc⟩ := hchar s c hd
      have hlt := (hbnd s).2
      omega
    · have hmaps : ∀ p ∈ ((Finset.univ : Finset (Fin S)) ×ˢ
          Finset.range (top1_capacity S E cf em frac).toNat).filter
            (fun p => r.dispatch p.1 e p.2 = true),
          p.2 ∈ Finset.range (top1_capacity S E cf em frac).toNat :=
        fun p hp => (Finset.mem_product.mp (Finset.mem_filter.mp hp).1).2
      have hinj : Set.InjOn (fun p : Fin S × ℕ => p.2)
          ↑(((Finset.univ : Finset (Fin S)) ×ˢ
            Finset.range (top1_capacity S E cf em frac).toNat).filter
              fun p => r.dispatch p.1 e p.2 = true) := by
        intro p hp q hq hpq
        have hpq' : p.2 = q.2 := hpq
        have hp' := Finset.mem_filter.mp (Finset.mem_coe.mp hp)
        have hq' := Finset.mem_filter.mp (Finset.mem_coe.mp hq)
        obtain ⟨hmp, hcp⟩ := hchar p.1 p.2 hp'.2
        obtain ⟨hmq, hcq⟩ := hchar q.1 q.2 hq'.2
        have hps : p.1 = q.1 := by
          by_contra hne1
          apply fcso_inj (routing_mask1_isBinary hE gates im)
            (top1_capped_sel hmp).1 (top1_capped_sel hmq).1 hne1
          have hlp := top1_locations1_s_sel hmp
          have hlq := top1_locations1_s_sel hmq
          show top1_locations1 hE gates im p.1 e = top1_locations1 hE gates im q.1 e
          rw [← hlp, ← hlq, ← hcp, ← hcq, hpq']
        exact Prod.ext hps hpq'
      have hcard := Finset.card_le_card_of_injOn _ hmaps hinj
      rw [Finset.card_range] at hcard
      omega
  · intro S E hE gates logits noise rand cfg r hsome e
    obtain ⟨⟨hC0, hbnd1⟩, hbnd2, _, hcomb, hdisp⟩ := top2gating_some hsome
    have hchar : ∀ s c, r.dispatch s e c = true →
        (top2_mask1_capped hE gates cfg s e = 1 ∧
            (c : ℤ) = top2_locations1_s hE gates logits noise rand cfg s) ∨
          (top2_mask2_capped hE gates logits noise rand cfg s e = 1 ∧
            (c : ℤ) = top2_locations2_s hE gates logits noise rand cfg s) := by
      intro s c hd
      rw [hdisp] at hd
      have hne := of_decide_eq_true hd
      rw [hcomb] at hne
      rcases add_ne_zero_cases hne with hA | hB
      · exact Or.inl (term_ne_zero (top2_mask1_capped_isBinary hE gates cfg s e) hA)
      · exact Or.inr
          (term_ne_zero (top2_mask2_capped_isBinary hE gates logits noise rand cfg s e) hB)
    constructor
    · intro s c hd
      rcases hchar s c hd with ⟨_, hc⟩ | ⟨_, hc⟩
      · have hlt := (hbnd1 s).2
        omega
      · have hlt := (hbnd2 s).2
        omega
    · have hmaps : ∀ p ∈ ((Finset.univ : Finset (Fin S)) ×ˢ
          Finset.range (top2_capacity S E cfg.eval_mode
            cfg.moe_eval_capacity_token_fraction).toNat).filter
            (fun p => r.dispatch p.1 e p.2 = true),
          p.2 ∈ Finset.range (top2_capacity S E cfg.eval_mode
            cfg.moe_eval_capacity_token_fraction).toNat :=
        fun p hp => (Finset.mem_product.mp (Finset.mem_filter.mp hp).1).2
      have hinj : Set.InjOn (fun p : Fin S × ℕ => p.2)
          ↑(((Finset.univ : Finset (Fin S)) ×ˢ
            Finset.range (top2_capacity S E cfg.eval_mode
              cfg.moe_eval_capacity_token_fraction).toNat).filter
              fun p => r.dispatch p.1 e p.2 = true) := by
        intro p hp q hq hpq
        have hpq' : p.2 = q.2 := hpq
        have hp' := Finset.mem_filter.mp (Finset.mem_coe.mp hp)
        have hq' := Finset.mem_filter.mp (Finset.mem_coe.mp hq)
        have hps : p.1 = q.1 := by
          rcases hchar p.1 p.2 hp'.2 with ⟨hmp, hcp⟩ | ⟨hmp, hcp⟩ <;>
            rcases hchar q.1 q.2 hq'.2 with ⟨hmq, hcq⟩ | ⟨hmq, hcq⟩
          · by_contra hne1
            apply top2_loc1_inj hmp hmq hne1
            have hlp := @top2_locations1_s_sel S E hE gates logits noise rand cfg p.1 e hmp
            have hlq := @top2_locations1_s_sel S E hE gates logits noise rand cfg q.1 e hmq
            rw [← hlp, ← hlq, ← hcp, ← hcq, hpq']
          · exfalso
            have hlp := @top2_locations1_s_sel S E hE gates logits noise rand cfg p.1 e hmp
            have hlq := top2_locations2_s_sel hmq
            have hlt := top2_loc1_lt_colsum hmp
            have hge := top2_loc2_ge_colsum hmq
            rw [← hlp] at hlt
            rw [← hlq] at hge
            omega
          · exfalso
            have hlp := top2_locations2_s_sel hmp
            have hlq := @top2_locations1_s_sel S E hE gates logits noise rand cfg q.1 e hmq
            have hlt := top2_loc1_lt_colsum hmq
            have hge := top2_loc2_ge_colsum hmp
            rw [← hlq] at hlt
            rw [← hlp] at hge
            omega
          · by_contra hne1
            apply top2_loc2_inj hmp hmq hne1
            have hlp := top2_locations2_s_sel hmp
            have hlq := top2_locations2_s_sel hmq
            rw [← hlp, ← hlq, ← hcp, ← hcq, hpq']
        exact Prod.ext hps hpq'
      have hcard := Finset.card_le_card_of_injOn _ hmaps hinj
      rw [Finset.card_range] at hcard
      omega

lemma demo_idxU : routing_indices1 two_pos demo_gatesU = id := by
  funext s
  fin_cases s <;>
    norm_num [routing_indices1, argmaxFin, argmaxAux, List.finRange, List.ofFn, demo_gatesU]

lemma demo_mask1U :
    routing_mask1 two_pos demo_gatesU none = fun s e => if e = s then 1 else 0 := by
  funext s e
  simp [routing_mask1, apply_input_mask, routing_mask1_raw, one_hot, demo_idxU]

lemma demo_capU1 : top1_capacity 2 2 1 false (1/4) = 1 := by
  have hceil : (⌈((2 : ℕ) : ℚ) / ((2 : ℕ) : ℚ)⌉ : ℤ) = 1 := by
    rw [Int.ceil_eq_iff] <;> norm_num
  unfold top1_capacity pyInt
  rw [if_neg (by simp), hceil]
  norm_num

lemma secondPolicy_other_ne_random : SecondPolicy.other ≠ SecondPolicy.random :=
  fun h => SecondPolicy.noConfusion h

lemma secondPolicy_other_ne_sampling : SecondPolicy.other ≠ SecondPolicy.sampling :=
  fun h => SecondPolicy.noConfusion h

lemma demo_cfgU_policy : demo_cfgU.second_expert_policy = SecondPolicy.other := rfl
lemma demo_cfgU_im : demo_cfgU.input_mask = none := rfl
lemma demo_cfgU_bp : demo_cfgU.batch_prioritized_routing = false := rfl
lemma demo_cfgU_em : demo_cfgU.eval_mode = false := rfl
lemma demo_cfgU_frac : demo_cfgU.moe_eval_capacity_token_fraction = 1/4 := rfl

lemma demo_capU2 : top2_capacity 2 2 false (1/4) = 2 := by
  have hceil : (⌈((2 : ℕ) : ℚ) / ((2 : ℕ) : ℚ)⌉ : ℤ) = 1 := by
    rw [Int.ceil_eq_iff] <;> norm_num
  unfold top2_capacity
  rw [if_neg (by simp), hceil]
  norm_num

lemma demo_cappedU :
    top1_mask1_capped two_pos demo_gatesU none 1 false (1/4) =
      fun s e => if e = s then 1 else 0 := by
  funext s e
  fin_cases s <;> fin_cases e <;>
    norm_num [top1_mask1_capped, demo_capU1, top1_locations1, fused_cumsum_sub_one,
      demo_mask1U, Finset.sum_filter, Fin.sum_univ_two]

lemma demo_loc1sU :
    top1_locations1_s two_pos demo_gatesU none 1 false (1/4) = fun _ => 0 := by
  funext s
  fin_cases s <;>
    norm_num [top1_locations1_s, Fin.sum_univ_two, demo_cappedU, top1_locations1,
      fused_cumsum_sub_one, demo_mask1U, Finset.sum_filter]

lemma demo_ohlU :
    one_hot_loc (top1_capacity 2 2 1 false (1/4))
      (top1_locations1_s two_pos demo_gatesU none 1 false (1/4)) =
      some fun _ (c : ℕ) => if (c : ℤ) = 0 then 1 else 0 := by
  rw [demo_capU1, demo_loc1sU]
  unfold one_hot_loc
  rw [if_pos (by constructor <;> simp)]

lemma demo_top1U_isSome :
    (top1gating two_pos demo_gatesU none 1 false (1/4)).isSome = true := by
  unfold top1gating
  rw [demo_ohlU]
  rfl

lemma demo_meU : ∀ e, routing_me demo_gatesU e = 1 / ((2 : ℕ) : ℚ) := by
  intro e
  fin_cases e <;> norm_num [routing_me, Fin.sum_univ_two, demo_gatesU]

lemma demo_ceU : ∀ e, routing_ce (routing_mask1 two_pos demo_gatesU none) e =
    1 / ((2 : ℕ) : ℚ) := by
  intro e
  fin_cases e <;> norm_num [routing_ce, Fin.sum_univ_two, demo_mask1U]

lemma demo_idx2U :
    top2_indices2 two_pos demo_gatesU demo_logitsU (fun _ _ => 0) SecondPolicy.other =
      fun s => if s = 0 then 1 else 0 := by
  funext s
  fin_cases s <;>
    norm_num [top2_indices2, top2_logits_except1, top2_logits_w_noise, routing_mask1_raw,
      one_hot, demo_idxU, argmaxFin, argmaxAux, List.finRange, List.ofFn, demo_logitsU,
      demo_gatesU, routing_indices1, WithBot.bot_lt_coe, WithBot.coe_lt_coe, not_lt_bot,
      secondPolicy_other_ne_sampling]

lemma demo_mask2U :
    top2_mask2 two_pos demo_gatesU demo_logitsU (fun _ _ => 0) (fun _ => 0) demo_cfgU =
      fun s e => if e = s then 0 else 1 := by
  funext s e
  fin_cases s <;> fin_cases e <;>
    norm_num [top2_mask2, apply_input_mask, demo_cfgU_policy, demo_cfgU_im,
      top2_mask2_thinned, top2_mask2_raw, one_hot, demo_idx2U,
      secondPolicy_other_ne_random]

lemma demo_mask1U2 :
    top2_mask1 two_pos demo_gatesU demo_cfgU = fun s e => if e = s then 1 else 0 :=
  demo_mask1U

lemma demo_capped1U2 :
    top2_mask1_capped two_pos demo_gatesU demo_cfgU = fun s e => if e = s then 1 else 0 := by
  funext s e
  fin_cases s <;> fin_cases e <;>
    norm_num [top2_mask1_capped, demo_cfgU_em, demo_cfgU_frac, demo_cfgU_bp, demo_capU2,
      top2_locations1, seq_or_bpr_locations, fused_cumsum_sub_one, demo_mask1U2,
      Finset.sum_filter, Fin.sum_univ_two]

lemma demo_capped2U2 :
    top2_mask2_capped two_pos demo_gatesU demo_logitsU (fun _ _ => 0) (fun _ => 0)
      demo_cfgU = fun s e => if e = s then 0 else 1 := by
  funext s e
  fin_cases s <;> fin_cases e <;>
    norm_num [top2_mask2_capped, demo_cfgU_em, demo_cfgU_frac, demo_cfgU_bp, demo_capU2,
      top2_locations2, seq_or_bpr_locations, fused_cumsum_sub_one, col_sum, demo_mask2U,
      demo_mask1U2, Finset.sum_filter, Fin.sum_univ_two]

lemma demo_loc1sU2 :
    top2_locations1_s two_pos demo_gatesU demo_logitsU (fun _ _ => 0) (fun _ => 0)
      demo_cfgU = fun _ => 0 := by
  funext s
  fin_cases s <;>
    norm_num [top2_locations1_s, Fin.sum_univ_two, demo_capped1U2, top2_locations1,
      seq_or_bpr_locations, demo_cfgU_bp, fused_cumsum_sub_one, demo_mask1U2,
      Finset.sum_filter]

lemma demo_loc2sU2 :
    top2_locations2_s two_pos demo_gatesU demo_logitsU (fun _ _ => 0) (fun _ => 0)
      demo_cfgU = fun _ => 1 := by
  funext s
  fin_cases s <;>
    norm_num [top2_locations2_s, Fin.sum_univ_two, demo_capped2U2, top2_locations2,
      seq_or_bpr_locations, demo_cfgU_bp, fused_cumsum_sub_one, col_sum, demo_mask2U,
      demo_mask1U2, Finset.sum_filter]

lemma demo_ohl1U2 :
    one_hot_loc (top2_capacity 2 2 demo_cfgU.eval_mode demo_cfgU.moe_eval_capacity_token_fraction)
      (top2_locations1_s two_pos demo_gatesU demo_logitsU (fun _ _ => 0) (fun _ => 0)
        demo_cfgU) = some fun _ (c : ℕ) => if (c : ℤ) = 0 then 1 else 0 := by
  rw [demo_cfgU_em, demo_cfgU_frac, demo_capU2, demo_loc1sU2]
  unfold one_hot_loc
  rw [if_pos (by constructor <;> simp)]

lemma demo_ohl2U2 :
    one_hot_loc (top2_capacity 2 2 demo_cfgU.eval_mode demo_cfgU.moe_eval_capacity_token_fraction)
      (top2_locations2_s two_pos demo_gatesU demo_logitsU (fun _ _ => 0) (fun _ => 0)
        demo_cfgU) = some fun _ (c : ℕ) => if (c : ℤ) = 1 then 1 else 0 := by
  rw [demo_cfgU_em, demo_cfgU_frac, demo_capU2, demo_loc2sU2]
  unfold one_hot_loc
  rw [if_pos (by constructor <;> simp)]

lemma demo_top2U_isSome :
    (top2gating two_pos demo_gatesU demo_logitsU (fun _ _ => 0) (fun _ => 0)
      demo_cfgU).isSome = true := by
  unfold top2gating
  rw [demo_ohl1U2, demo_ohl2U2]
  rfl

lemma demo_idxOv : routing_indices1 two_pos demo_gatesOv = fun _ => 0 := by
  funext s
  fin_cases s <;>
    norm_num [routing_indices1, argmaxFin, argmaxAux, List.finRange, List.ofFn,
      demo_gatesOv]

lemma demo_mask1Ov :
    routing_mask1 two_pos demo_gatesOv none = fun _ e => if e = 0 then 1 else 0 := by
  funext s e
  simp [routing_mask1, apply_input_mask, routing_mask1_raw, one_hot, demo_idxOv]

lemma demo_capOv : top1_capacity 3 2 1 true (1/4) = 1 := by
  unfold top1_capacity
  rw [if_pos ⟨by norm_num, rfl⟩, Int.ceil_eq_iff] <;> norm_num

lemma demo_cappedOv :
    top1_mask1_capped two_pos demo_gatesOv none 1 true (1/4) =
      fun s e => if s = 0 ∧ e = 0 then 1 else 0 := by
  funext s e
  fin_cases s <;> fin_cases e <;>
    norm_num [top1_mask1_capped, demo_capOv, top1_locations1, fused_cumsum_sub_one,
      demo_mask1Ov, Finset.sum_filter, Fin.sum_univ_three] <;> decide

lemma demo_loc1sOv :
    top1_locations1_s two_pos demo_gatesOv none 1 true (1/4) = fun _ => 0 := by
  funext s
  fin_cases s <;>
    norm_num [top1_locations1_s, Fin.sum_univ_two, demo_cappedOv, top1_locations1,
      fused_cumsum_sub_one, demo_mask1Ov, Finset.sum_filter, Fin.sum_univ_three] <;>
    decide

lemma demo_ohlOv :
    one_hot_loc (top1_capacity 3 2 1 true (1/4))
      (top1_locations1_s two_pos demo_gatesOv none 1 true (1/4)) =
      some fun _ (c : ℕ) => if (c : ℤ) = 0 then 1 else 0 := by
  rw [demo_capOv, demo_loc1sOv]
  unfold one_hot_loc
  rw [if_pos (by constructor <;> simp)]

lemma demo_g1sOv : top1_gates1_s two_pos demo_gatesOv none = fun _ => 4/5 := by
  funext s
  fin_cases s <;>
    norm_num [top1_gates1_s, Fin.sum_univ_two, demo_mask1Ov, demo_gatesOv]

lemma demo_lauxOv :
    routing_l_aux demo_gatesOv (routing_mask1 two_pos demo_gatesOv none) = 8/5 := by
  norm_num [routing_l_aux, routing_me, routing_ce, Fin.sum_univ_two, Fin.sum_univ_three,
    demo_gatesOv, demo_mask1Ov] <;> decide

lemma demo_top1Ov_eval :
    (top1gating two_pos demo_gatesOv none 1 true (1/4)).map
      (fun r => (r.l_aux, r.combine 0 0 0, r.combine 1 0 0, r.combine 1 1 0,
        r.combine 2 0 0, r.combine 2 1 0)) =
      some (8/5, 4/5, 0, 0, 0, 0) := by
  unfold top1gating
  rw [demo_ohlOv, Option.map_some', Option.map_some', Option.some_inj]
  norm_num [demo_g1sOv, demo_cappedOv, demo_lauxOv, demo_loc1sOv] <;> decide

/-- Uniform means give auxiliary loss exactly 1. -/
lemma l_aux_uniform {S E : ℕ} (hE : 0 < E) (gates : Fin S → Fin E → ℚ)
    (mask1 : Fin S → Fin E → ℤ)
    (hme : ∀ e, routing_me gates e = 1 / (E : ℚ))
    (hce : ∀ e, routing_ce mask1 e = 1 / (E : ℚ)) :
    routing_l_aux gates mask1 = 1 := by
  unfold routing_l_aux
  have hEne : ((E : ℚ)) ≠ 0 := Nat.cast_ne_zero.mpr hE.ne'
  rw [Finset.sum_congr rfl fun e _ => by rw [hme e, hce e]]
  rw [Finset.sum_const, Finset.card_univ, Fintype.card_fin, nsmul_eq_mul]
  field_simp

/-- C6: the auxiliary balance loss is E^2 times the mean over experts of me * ce,
computed from the pre-capacity first-choice mask: whenever the per-expert mean
gate probability and the per-expert assignment fraction are both uniformly 1/E,
both routers return l_aux = 1; and in the three-token overflow scenario with
capacity 1, top1gating returns l_aux = 8/5 computed from the unfiltered mask
while the combine rows of the two dropped tokens are all zero. -/
theorem claim_C6_balance_loss :
    (∀ (S E : ℕ) (hE : 0 < E) (gates : Fin S → Fin E → ℚ) (im : Option (Fin S → Bool))
        (cf : ℚ) (em : Bool) (frac : ℚ) (r : GatingResult S E),
      top1gating hE gates im cf em frac = some r →
      (∀ e, routing_me gates e = 1 / (E : ℚ)) →
      (∀ e, routing_ce (routing_mask1 hE gates im) e = 1 / (E : ℚ)) →
      r.l_aux = 1) ∧
      (∀ (S E : ℕ) (hE : 0 < E) (gates logits noise : Fin S → Fin E → ℚ)
          (rand : Fin S → ℚ) (cfg : Top2Config S) (r : GatingResult S E),
        top2gating hE gates logits noise rand cfg = some r →
        (∀ e, routing_me gates e = 1 / (E : ℚ)) →
        (∀ e, routing_ce (top2_mask1 hE gates cfg) e = 1 / (E : ℚ)) →
        r.l_aux = 1) ∧
      (top1gating two_pos demo_gatesOv none 1 true (1/4)).map
          (fun r => (r.l_aux, r.combine 0 0 0, r.combine 1 0 0, r.combine 1 1 0,
            r.combine 2 0 0, r.combine 2 1 0)) =
        some (8/5, 4/5, 0, 0, 0, 0) := by
  refine ⟨?_, ?_, demo_top1Ov_eval⟩
  · intro S E hE gates im cf em frac r hsome hme hce
    obtain ⟨_, hlaux, _, _⟩ := top1gating_some hsome
    rw [hlaux]
    exact l_aux_uniform hE gates _ hme hce
  · intro S E hE gates logits noise rand cfg r hsome hme hce
    obtain ⟨_, _, hlaux, _, _⟩ := top2gating_some hsome
    rw [hlaux]
    exact l_aux_uniform hE gates _ hme hce

lemma demo_cfgN_policy (nb : Bool) :
    (demo_cfgN nb).second_expert_policy = SecondPolicy.other := rfl
lemma demo_cfgN_im (nb : Bool) : (demo_cfgN nb).input_mask = none := rfl
lemma demo_cfgN_bp (nb : Bool) : (demo_cfgN nb).batch_prioritized_routing = false := rfl
lemma demo_cfgN_em (nb : Bool) : (demo_cfgN nb).eval_mode = true := rfl
lemma demo_cfgN_frac (nb : Bool) :
    (demo_cfgN nb).moe_eval_capacity_token_fraction = 1/4 := rfl
lemma demo_cfgN_nb (nb : Bool) :
    (demo_cfgN nb).normalize_gate_prob_before_dropping = nb := rfl

lemma demo_capN : top2_capacity 2 3 true (1/4) = 1 := by
  unfold top2_capacity
  rw [if_pos ⟨by norm_num, rfl⟩, Int.ceil_eq_iff] <;> norm_num

lemma demo_idxN : routing_indices1 three_pos demo_gatesN =
    fun s => if s = 0 then 1 else 0 := by
  funext s
  fin_cases s <;>
    norm_num [routing_indices1, argmaxFin, argmaxAux, List.finRange, List.ofFn,
      demo_gatesN, Fin.ext_iff, Fin.val_zero, Fin.val_one, Fin.val_two]

lemma demo_mask1rawN : routing_mask1_raw three_pos demo_gatesN =
    fun s e => if s = 0 then (if e = 1 then 1 else 0) else if e = 0 then 1 else 0 := by
  funext s e
  fin_cases s <;> fin_cases e <;>
    norm_num [routing_mask1_raw, one_hot, demo_idxN,
      Fin.ext_iff, Fin.val_zero, Fin.val_one, Fin.val_two] <;> decide

lemma demo_mask1N (nb : Bool) : top2_mask1 three_pos demo_gatesN (demo_cfgN nb) =
    fun s e => if s = 0 then (if e = 1 then 1 else 0) else if e = 0 then 1 else 0 := by
  rw [show top2_mask1 three_pos demo_gatesN (demo_cfgN nb) =
    routing_mask1_raw three_pos demo_gatesN from rfl, demo_mask1rawN]

lemma demo_idx2N : top2_indices2 three_pos demo_gatesN demo_gatesN (fun _ _ => 0)
    SecondPolicy.other = fun s => if s = 0 then 2 else 1 := by
  funext s
  fin_cases s <;>
    norm_num [top2_indices2, top2_logits_except1, top2_logits_w_noise, demo_mask1rawN,
      argmaxFin, argmaxAux, List.finRange, List.ofFn, demo_gatesN,
      WithBot.bot_lt_coe, WithBot.coe_lt_coe, not_lt_bot,
      secondPolicy_other_ne_sampling,
      Fin.ext_iff, Fin.val_zero, Fin.val_one, Fin.val_two] <;> decide

lemma demo_mask2N (nb : Bool) : top2_mask2 three_pos demo_gatesN demo_gatesN
    (fun _ _ => 0) (fun _ => 0) (demo_cfgN nb) =
    fun s e => if s = 0 then (if e = 2 then 1 else 0) else if e = 1 then 1 else 0 := by
  funext s e
  fin_cases s <;> fin_cases e <;>
    norm_num [top2_mask2, apply_input_mask, demo_cfgN_policy, demo_cfgN_im,
      top2_mask2_thinned, top2_mask2_raw, one_hot, demo_idx2N,
      secondPolicy_other_ne_random,
      Fin.ext_iff, Fin.val_zero, Fin.val_one, Fin.val_two] <;> decide

lemma demo_capped1N (nb : Bool) :
    top2_mask1_capped three_pos demo_gatesN (demo_cfgN nb) =
    fun s e => if s = 0 then (if e = 1 then 1 else 0) else if e = 0 then 1 else 0 := by
  funext s e
  fin_cases s <;> fin_cases e <;>
    norm_num [top2_mask1_capped, demo_cfgN_em, demo_cfgN_frac, demo_cfgN_bp, demo_capN,
      top2_locations1, seq_or_bpr_locations, fused_cumsum_sub_one, demo_mask1N,
      Finset.sum_filter, Fin.sum_univ_two,
      Fin.ext_iff, Fin.val_zero, Fin.val_one, Fin.val_two] <;> decide

lemma demo_capped2N (nb : Bool) :
    top2_mask2_capped three_pos demo_gatesN demo_gatesN (fun _ _ => 0) (fun _ => 0)
      (demo_cfgN nb) = fun s e => if s = 0 ∧ e = 2 then 1 else 0 := by
  funext s e
  fin_cases s <;> fin_cases e <;>
    norm_num [top2_mask2_capped, demo_cfgN_em, demo_cfgN_frac, demo_cfgN_bp, demo_capN,
      top2_locations2, seq_or_bpr_locations, fused_cumsum_sub_one, col_sum, demo_mask2N,
      demo_mask1N, Finset.sum_filter, Fin.sum_univ_two,
      Fin.ext_iff, Fin.val_zero, Fin.val_one, Fin.val_two] <;> decide

lemma demo_loc1sN (nb : Bool) :
    top2_locations1_s three_pos demo_gatesN demo_gatesN (fun _ _ => 0) (fun _ => 0)
      (demo_cfgN nb) = fun _ => 0 := by
  funext s
  fin_cases s <;>
    norm_num [top2_locations1_s, Fin.sum_univ_three, demo_capped1N, top2_locations1,
      seq_or_bpr_locations, demo_cfgN_bp, fused_cumsum_sub_one, demo_mask1N,
      Finset.sum_filter, Fin.sum_univ_two,
      Fin.ext_iff, Fin.val_zero, Fin.val_one, Fin.val_two] <;> decide

lemma demo_loc2sN (nb : Bool) :
    top2_locations2_s three_pos demo_gatesN demo_gatesN (fun _ _ => 0) (fun _ => 0)
      (demo_cfgN nb) = fun _ => 0 := by
  funext s
  fin_cases s <;>
    norm_num [top2_locations2_s, Fin.sum_univ_three, demo_capped2N, top2_locations2,
      seq_or_bpr_locations, demo_cfgN_bp, fused_cumsum_sub_one, col_sum, demo_mask2N,
      demo_mask1N, Finset.sum_filter, Fin.sum_univ_two,
      Fin.ext_iff, Fin.val_zero, Fin.val_one, Fin.val_two] <;> decide

lemma demo_ohl1N (nb : Bool) :
    one_hot_loc (top2_capacity 2 3 (demo_cfgN nb).eval_mode
        (demo_cfgN nb).moe_eval_capacity_token_fraction)
      (top2_locations1_s three_pos demo_gatesN demo_gatesN (fun _ _ => 0) (fun _ => 0)
        (demo_cfgN nb)) = some fun _ (c : ℕ) => if (c : ℤ) = 0 then 1 else 0 := by
  rw [demo_cfgN_em, demo_cfgN_frac, demo_capN, demo_loc1sN]
  unfold one_hot_loc
  rw [if_pos (by constructor <;> simp)]

lemma demo_ohl2N (nb : Bool) :
    one_hot_loc (top2_capacity 2 3 (demo_cfgN nb).eval_mode
        (demo_cfgN nb).moe_eval_capacity_token_fraction)
      (top2_locations2_s three_pos demo_gatesN demo_gatesN (fun _ _ => 0) (fun _ => 0)
        (demo_cfgN nb)) = some fun _ (c : ℕ) => if (c : ℤ) = 0 then 1 else 0 := by
  rw [demo_cfgN_em, demo_cfgN_frac, demo_capN, demo_loc2sN]
  unfold one_hot_loc
  rw [if_pos (by constructor <;> simp)]

lemma demo_g1rawN : top2_gates1_s_raw three_pos demo_gatesN 1 = 3/5 := by
  norm_num [top2_gates1_s_raw, Fin.sum_univ_three, demo_mask1rawN, demo_gatesN,
      Fin.ext_iff, Fin.val_zero, Fin.val_one, Fin.val_two]

lemma demo_g2rawN : top2_gates2_s_raw three_pos demo_gatesN demo_gatesN (fun _ _ => 0)
    SecondPolicy.other 1 = 3/10 := by
  norm_num [top2_gates2_s_raw, Fin.sum_univ_three, top2_mask2_raw, one_hot, demo_idx2N,
    demo_gatesN,
      Fin.ext_iff, Fin.val_zero, Fin.val_one, Fin.val_two]

lemma demo_g1fN_true : top2_gates1_s_final three_pos demo_gatesN demo_gatesN
    (fun _ _ => 0) (fun _ => 0) (demo_cfgN true) 1 = 2/3 := by
  unfold top2_gates1_s_final top2_gates1_s_pre
  rw [demo_cfgN_nb, if_pos rfl, if_pos rfl, demo_cfgN_policy]
  rw [demo_g1rawN, demo_g2rawN]
  rw [max_eq_left (by norm_num [torch_eps])]
  norm_num

lemma demo_g1fN_false : top2_gates1_s_final three_pos demo_gatesN demo_gatesN
    (fun _ _ => 0) (fun _ => 0) (demo_cfgN false) 1 = 1 := by
  unfold top2_gates1_s_final
  rw [demo_cfgN_nb, if_neg (by simp)]
  have h1 : (∑ e, demo_gatesN 1 e *
      ((top2_mask1_capped three_pos demo_gatesN (demo_cfgN false) 1 e : ℤ) : ℚ)) = 3/5 := by
    norm_num [Fin.sum_univ_three, demo_capped1N, demo_gatesN,
      Fin.ext_iff, Fin.val_zero, Fin.val_one, Fin.val_two]
  have h2 : (∑ e, demo_gatesN 1 e *
      ((top2_mask2_capped three_pos demo_gatesN demo_gatesN (fun _ _ => 0) (fun _ => 0)
        (demo_cfgN false) 1 e : ℤ) : ℚ)) = 0 := by
    norm_num [Fin.sum_univ_three, demo_capped2N, demo_gatesN,
      Fin.ext_iff, Fin.val_zero, Fin.val_one, Fin.val_two]
  rw [h1, h2]
  rw [max_eq_left (by norm_num [torch_eps])]
  norm_num

/-- C4: the two normalization orders diverge on the documented scenario: a token
with raw gate probabilities 3/5 (first choice) and 3/10 (second choice) whose
second choice is dropped by capacity while the first survives receives final
combine weight 2/3 when normalization precedes dropping and 1 under the default
post-drop normalization; the second-choice expert receives weight 0 and is not
dispatched in either mode. -/
theorem claim_C4_normalization_order :
    (top2gating three_pos demo_gatesN demo_gatesN (fun _ _ => 0) (fun _ => 0)
        (demo_cfgN true)).map
        (fun r => (r.combine 1 0 0, r.combine 1 1 0, r.dispatch 1 1 0)) =
      some (2/3, 0, false) ∧
      (top2gating three_pos demo_gatesN demo_gatesN (fun _ _ => 0) (fun _ => 0)
          (demo_cfgN false)).map
          (fun r => (r.combine 1 0 0, r.combine 1 1 0, r.dispatch 1 1 0)) =
        some (1, 0, false) := by
  constructor
  · unfold top2gating
    rw [demo_ohl1N, demo_ohl2N]
    rw [Option.some_bind, Option.map_some', Option.map_some', Option.some_inj]
    norm_num [demo_g1fN_true, demo_capped1N, demo_capped2N, decide_eq_false_iff_not,
      Fin.ext_iff, Fin.val_zero, Fin.val_one, Fin.val_two]
  · unfold top2gating
    rw [demo_ohl1N, demo_ohl2N]
    rw [Option.some_bind, Option.map_some', Option.map_some', Option.some_inj]
    norm_num [demo_g1fN_false, demo_capped1N, demo_capped2N, decide_eq_false_iff_not,
      Fin.ext_iff, Fin.val_zero, Fin.val_one, Fin.val_two]

lemma demo_cfg1_policy : demo_cfg1.second_expert_policy = SecondPolicy.other := rfl
lemma demo_cfg1_im : demo_cfg1.input_mask = none := rfl
lemma demo_cfg1_bp : demo_cfg1.batch_prioritized_routing = false := rfl
lemma demo_cfg1_em : demo_cfg1.eval_mode = false := rfl
lemma demo_cfg1_frac : demo_cfg1.moe_eval_capacity_token_fraction = 1/4 := rfl

lemma demo_cap1 : top2_capacity 1 1 false (1/4) = 2 := by
  have hceil : (⌈((1 : ℕ) : ℚ) / ((1 : ℕ) : ℚ)⌉ : ℤ) = 1 := by
    rw [Int.ceil_eq_iff] <;> norm_num
  unfold top2_capacity
  rw [if_neg (by simp), hceil]
  norm_num

lemma demo_mask1r1 : routing_mask1_raw Nat.one_pos demo_gates1 = fun _ _ => 1 := by
  funext s e
  norm_num [routing_mask1_raw, one_hot, routing_indices1, argmaxFin, argmaxAux,
    List.finRange, List.ofFn, demo_gates1, Fin.ext_iff]

lemma demo_mask11 : top2_mask1 Nat.one_pos demo_gates1 demo_cfg1 = fun _ _ => 1 := by
  rw [show top2_mask1 Nat.one_pos demo_gates1 demo_cfg1 =
    routing_mask1_raw Nat.one_pos demo_gates1 from rfl, demo_mask1r1]

lemma demo_mask21 : top2_mask2 Nat.one_pos demo_gates1 demo_gates1 (fun _ _ => 0)
    (fun _ => 0) demo_cfg1 = fun _ _ => 1 := by
  funext s e
  norm_num [top2_mask2, apply_input_mask, demo_cfg1_policy, demo_cfg1_im,
    top2_mask2_thinned, top2_mask2_raw, one_hot, top2_indices2, top2_logits_except1,
    top2_logits_w_noise, demo_mask1r1, argmaxFin, argmaxAux, List.finRange, List.ofFn,
    secondPolicy_other_ne_random, secondPolicy_other_ne_sampling, Fin.ext_iff]

lemma demo_loc11 : top2_locations1 Nat.one_pos demo_gates1 demo_cfg1 0 0 = 0 := by
  norm_num [top2_locations1, seq_or_bpr_locations, demo_cfg1_bp, fused_cumsum_sub_one,
    demo_mask11, Finset.sum_filter, Fin.sum_univ_one]

lemma demo_loc21 : top2_locations2 Nat.one_pos demo_gates1 demo_gates1 (fun _ _ => 0)
    (fun _ => 0) demo_cfg1 0 0 = 1 := by
  norm_num [top2_locations2, seq_or_bpr_locations, demo_cfg1_bp, fused_cumsum_sub_one,
    col_sum, demo_mask21, demo_mask11, Finset.sum_filter, Fin.sum_univ_one]

lemma demo_mask1c1 : top2_mask1_capped Nat.one_pos demo_gates1 demo_cfg1 0 0 = 1 := by
  norm_num [top2_mask1_capped, demo_cfg1_em, demo_cfg1_frac, demo_cap1, demo_loc11,
    demo_mask11]

lemma demo_mask2c1 : top2_mask2_capped Nat.one_pos demo_gates1 demo_gates1 (fun _ _ => 0)
    (fun _ => 0) demo_cfg1 0 0 = 1 := by
  norm_num [top2_mask2_capped, demo_cfg1_em, demo_cfg1_frac, demo_cap1, demo_loc21,
    demo_mask21]

theorem claim_C10_distinct_slots_witness :
    top2_mask1_capped Nat.one_pos demo_gates1 demo_cfg1 0 0 = 1 ∧
      top2_mask2_capped Nat.one_pos demo_gates1 demo_gates1 (fun _ _ => 0) (fun _ => 0)
        demo_cfg1 0 0 = 1 ∧
      top2_locations1 Nat.one_pos demo_gates1 demo_cfg1 0 0 ≠
        top2_locations2 Nat.one_pos demo_gates1 demo_gates1 (fun _ _ => 0) (fun _ => 0)
          demo_cfg1 0 0 := by
  refine ⟨demo_mask1c1, demo_mask2c1, ?_⟩
  have h := claim_C10_distinct_slots Nat.one_pos demo_gates1 demo_gates1 (fun _ _ => 0)
    (fun _ => 0) demo_cfg1 0 0 0 true false
    (by simpa using demo_mask1c1) (by simpa using demo_mask2c1) (by simp)
  simpa using h

theorem claim_C1_capacity_invariant_witness :
    (top1gating two_pos demo_gatesU none 1 false (1/4)).isSome = true ∧
      (top1gating two_pos demo_gatesU none 1 false (1/4)).elim True
        (fun r => ∀ e : Fin 2,
          ((((Finset.univ : Finset (Fin 2)) ×ˢ
              Finset.range (top1_capacity 2 2 1 false (1/4)).toNat).filter
                fun p => r.dispatch p.1 e p.2 = true).card : ℤ) ≤
            top1_capacity 2 2 1 false (1/4)) := by
  refine ⟨demo_top1U_isSome, ?_⟩
  cases hsome : top1gating two_pos demo_gatesU none 1 false (1/4) with
  | none => trivial
  | some r =>
    exact fun e =>
      (claim_C1_capacity_invariant.1 2 2 two_pos demo_gatesU none 1 false (1/4) r hsome e).2

theorem claim_C2_disjoint_masks_witness :
    top2_indices2 two_pos demo_gatesU demo_logitsU (fun _ _ => 0) SecondPolicy.other 0 ≠
        routing_indices1 two_pos demo_gatesU 0 ∧
      ∀ e, routing_mask1_raw two_pos demo_gatesU 0 e = 0 ∨
        top2_mask2_raw two_pos demo_gatesU demo_logitsU (fun _ _ => 0)
          SecondPolicy.other 0 e = 0 :=
  claim_C2_disjoint_masks two_pos (le_refl 2) demo_gatesU demo_logitsU (fun _ _ => 0)
    SecondPolicy.other 0

lemma demo_cap0 : top1_capacity 1 2 (1/2) false (1/4) = 0 := by
  have hceil2 : (⌈((1 : ℕ) : ℚ) / ((2 : ℕ) : ℚ)⌉ : ℤ) = 1 := by
    rw [Int.ceil_eq_iff] <;> norm_num
  unfold top1_capacity pyInt
  rw [if_neg (by simp), hceil2]
  norm_num

theorem claim_C3_zero_capacity_errors_witness :
    top1gating (S := 1) (E := 2) two_pos (fun _ _ => (1/2 : ℚ)) none (1/2) false (1/4) =
      none :=
  claim_C3_zero_capacity_errors two_pos Nat.one_pos (fun _ _ => (1/2 : ℚ)) none (1/2)
    false (1/4) demo_cap0

lemma demo_capOv2 : top1_capacity 3 2 1 false (1/4) = 2 := by
  have hceil : (⌈((3 : ℕ) : ℚ) / ((2 : ℕ) : ℚ)⌉ : ℤ) = 2 := by
    rw [Int.ceil_eq_iff] <;> norm_num
  unfold top1_capacity pyInt
  rw [if_neg (by simp), hceil]
  norm_num

lemma demo_cappedOv2 : top1_mask1_capped two_pos demo_gatesOv none 1 false (1/4) =
    fun s e => if (s = 0 ∨ s = 1) ∧ e = 0 then 1 else 0 := by
  funext s e
  fin_cases s <;> fin_cases e <;>
    norm_num [top1_mask1_capped, demo_capOv2, top1_locations1, fused_cumsum_sub_one,
      demo_mask1Ov, Finset.sum_filter, Fin.sum_univ_three] <;> decide

theorem claim_C5_admission_order_witness :
    top1_mask1_capped two_pos demo_gatesOv none 1 false (1/4) 0 0 = 1 ∧
      top1_mask1_capped two_pos demo_gatesOv none 1 false (1/4) 1 0 = 1 ∧
      top1_locations1_s two_pos demo_gatesOv none 1 false (1/4) 0 <
        top1_locations1_s two_pos demo_gatesOv none 1 false (1/4) 1 := by
  have h0 : top1_mask1_capped two_pos demo_gatesOv none 1 false (1/4) 0 0 = 1 := by
    rw [demo_cappedOv2]
    decide
  have h1 : top1_mask1_capped two_pos demo_gatesOv none 1 false (1/4) 1 0 = 1 := by
    rw [demo_cappedOv2]
    decide
  exact ⟨h0, h1, claim_C5_admission_order.1 3 2 two_pos demo_gatesOv none 1 false (1/4)
    0 1 0 (by decide) h0 h1⟩

theorem claim_C6_balance_loss_witness :
    (top1gating two_pos demo_gatesU none 1 false (1/4)).isSome = true ∧
      (top1gating two_pos demo_gatesU none 1 false (1/4)).elim True
        (fun r => r.l_aux = 1) ∧
      (top2gating two_pos demo_gatesU demo_logitsU (fun _ _ => 0) (fun _ => 0)
        demo_cfgU).isSome = true ∧
      (top2gating two_pos demo_gatesU demo_logitsU (fun _ _ => 0) (fun _ => 0)
        demo_cfgU).elim True (fun r => r.l_aux = 1) := by
  refine ⟨demo_top1U_isSome, ?_, demo_top2U_isSome, ?_⟩
  · cases hsome : top1gating two_pos demo_gatesU none 1 false (1/4) with
    | none => trivial
    | some r =>
      exact claim_C6_balance_loss.1 2 2 two_pos demo_gatesU none 1 false (1/4) r hsome
        demo_meU demo_ceU
  · cases hsome : top2gating two_pos demo_gatesU demo_logitsU (fun _ _ => 0) (fun _ => 0)
        demo_cfgU with
    | none => trivial
    | some r =>
      exact claim_C6_balance_loss.2.1 2 2 two_pos demo_gatesU demo_logitsU (fun _ _ => 0)
        (fun _ => 0) demo_cfgU r hsome demo_meU demo_ceU

theorem claim_C7_capacity_formula_witness :
    top1_capacity 4 2 1 true (1/4) = ⌈(1/4 : ℚ) * ((4 : ℕ) : ℚ)⌉ ∧
      top2_capacity 4 2 true (1/4) = ⌈(1/4 : ℚ) * ((4 : ℕ) : ℚ)⌉ ∧
      top1_capacity 4 2 1 false (1/4) =
        ⌊(1 : ℚ) * ((⌈((4 : ℕ) : ℚ) / ((2 : ℕ) : ℚ)⌉ : ℤ) : ℚ)⌋ ∧
      top2_capacity 4 2 false (1/4) = 2 * ⌈((4 : ℕ) : ℚ) / ((2 : ℕ) : ℚ)⌉ := by
  have h1 := claim_C7_capacity_formula 4 2 1 (1/4) true
  have h2 := claim_C7_capacity_formula 4 2 1 (1/4) false
  exact ⟨(h1.1 ⟨rfl, by norm_num⟩).1, (h1.1 ⟨rfl, by norm_num⟩).2,
    (h2.2 (by simp)).2.1 (by norm_num), (h2.2 (by simp)).2.2⟩

theorem claim_C8_top1_mask_row_witness :
    (Finset.univ.filter fun e => routing_mask1 two_pos demo_gatesU none (0 : Fin 2) e ≠ 0).card ≤ 1 ∧
      routing_mask1 (S := 1) two_pos (fun _ _ => (1/2 : ℚ)) (some fun _ => true) 0 0 = 0 :=
  ⟨(claim_C8_top1_mask_row 2 2 two_pos demo_gatesU none).1 0,
    (claim_C8_top1_mask_row 1 2 two_pos (fun _ _ => (1/2 : ℚ)) (some fun _ => true)).2
      (fun _ => true) rfl 0 rfl 0⟩

theorem claim_C9_deterministic_witness :
    top2gating two_pos demo_gatesU demo_logitsU (fun _ _ => 0) (fun _ => 0)
        ⟨none, SecondPolicy.other, false, false, 1/4, false, Equiv.refl (Fin 2)⟩ =
      top2gating two_pos demo_gatesU demo_logitsU (fun _ _ => 1) (fun _ => 1)
        ⟨none, SecondPolicy.other, false, false, 1/4, false, Equiv.refl (Fin 2)⟩ :=
  claim_C9_deterministic.2 2 2 two_pos demo_gatesU demo_logitsU (fun _ _ => 0)
    (fun _ _ => 1) (fun _ => 0) (fun _ => 1) none false false (1/4) false
    (Equiv.refl (Fin 2))
